import Mathlib

/-!
# thola: device data model and the Aviat code communicator

A shallow embedding of

* `internal/device/device.go`: the `Status` and `HardwareHealthComponentState`
  string enumerations with their integer conversions, the `Interface` record, the
  binding of device properties to a context, and the serialization tags of every struct;
* `config/codecommunicator/aviat.go`: `aviatCommunicator.GetInterfaces`;
* `core/request/check_cpu_load.go`: `CheckCPULoadRequest.validate`.

Conventions of the embedding

* a Go `string` type is a Lean `String`, a Go `int` is an `Int`;
* a Go `uint64` is a `Nat` below `2 ^ 64`, every addition and multiplication of the
  source is followed by `% 2 ^ 64`;
* a Go pointer field `*T` is an `Option T` (`nil` is `none`); pointer identity is not
  modelled, only the pointed-to value;
* a Go result pair `(T, error)` whose value component matters also on the error path
  is a `GoResult T`, a pair of the value and an optional error; where the source
  returns `nil` next to the error it is an `Except`.
-/

set_option autoImplicit false

namespace Thola

/-- Go `error` values: `errors.New` and `fmt.Errorf` build a leaf carrying the message,
`errors.Wrap` of `github.com/pkg/errors` keeps the cause and adds a message. -/
inductive Error where
  | new (msg : String)
  | wrap (cause : Error) (msg : String)
  deriving DecidableEq, Repr

/-- A Go result pair `(T, error)`: the value is there also when the error is not `nil`. -/
structure GoResult (α : Type) where
  val : α
  err : Option Error
  deriving DecidableEq, Repr

/-! ## `internal/device/device.go`: `Status` -/

/-- Status represents an interface status (`type Status string`). -/
abbrev Status := String

def StatusUp : Status := "up"
def StatusDown : Status := "down"
def StatusTesting : Status := "testing"
def StatusUnknown : Status := "unknown"
def StatusDormant : Status := "dormant"
def StatusNotPresent : Status := "notPresent"
def StatusLowerLayerDown : Status := "lowerLayerDown"

/-- The seven documented labels, in declaration order. -/
def allStatus : List Status :=
  [StatusUp, StatusDown, StatusTesting, StatusUnknown, StatusDormant, StatusNotPresent,
    StatusLowerLayerDown]

/-- GetStatus returns the Status that is encoded by the code integer. -/
def GetStatus (code : Int) : GoResult Status :=
  if code = 1 then ⟨StatusUp, none⟩
  else if code = 2 then ⟨StatusDown, none⟩
  else if code = 3 then ⟨StatusTesting, none⟩
  else if code = 4 then ⟨StatusUnknown, none⟩
  else if code = 5 then ⟨StatusDormant, none⟩
  else if code = 6 then ⟨StatusNotPresent, none⟩
  else if code = 7 then ⟨StatusLowerLayerDown, none⟩
  else ⟨"", some (Error.new "invalid status code")⟩

/-- ToStatusCode returns the status as a code. -/
def ToStatusCode (s : Status) : GoResult Int :=
  if s = StatusUp then ⟨1, none⟩
  else if s = StatusDown then ⟨2, none⟩
  else if s = StatusTesting then ⟨3, none⟩
  else if s = StatusUnknown then ⟨4, none⟩
  else if s = StatusDormant then ⟨5, none⟩
  else if s = StatusNotPresent then ⟨6, none⟩
  else if s = StatusLowerLayerDown then ⟨7, none⟩
  else ⟨0, some (Error.new "invalid status")⟩

/-! ## `internal/device/device.go`: `HardwareHealthComponentState` -/

/-- The state of a hardware health component (`type HardwareHealthComponentState string`). -/
abbrev HardwareHealthComponentState := String

def HardwareHealthComponentStateInitial : HardwareHealthComponentState := "initial"
def HardwareHealthComponentStateNormal : HardwareHealthComponentState := "normal"
def HardwareHealthComponentStateWarning : HardwareHealthComponentState := "warning"
def HardwareHealthComponentStateCritical : HardwareHealthComponentState := "critical"
def HardwareHealthComponentStateShutdown : HardwareHealthComponentState := "shutdown"
def HardwareHealthComponentStateNotPresent : HardwareHealthComponentState := "not_present"
def HardwareHealthComponentStateNotFunctioning : HardwareHealthComponentState :=
  "not_functioning"
def HardwareHealthComponentStateUnknown : HardwareHealthComponentState := "unknown"

/-- The eight documented labels, in declaration order. -/
def allHardwareHealthComponentState : List HardwareHealthComponentState :=
  [HardwareHealthComponentStateInitial, HardwareHealthComponentStateNormal,
    HardwareHealthComponentStateWarning, HardwareHealthComponentStateCritical,
    HardwareHealthComponentStateShutdown, HardwareHealthComponentStateNotPresent,
    HardwareHealthComponentStateNotFunctioning, HardwareHealthComponentStateUnknown]

/-- The `GetInt` method: the ordinal of a state; after the `switch` falls through the
source returns `7` together with `fmt.Errorf("invalid hardware health state '%s'", h)`. -/
def GetInt (h : HardwareHealthComponentState) : GoResult Int :=
  if h = HardwareHealthComponentStateInitial then ⟨0, none⟩
  else if h = HardwareHealthComponentStateNormal then ⟨1, none⟩
  else if h = HardwareHealthComponentStateWarning then ⟨2, none⟩
  else if h = HardwareHealthComponentStateCritical then ⟨3, none⟩
  else if h = HardwareHealthComponentStateShutdown then ⟨4, none⟩
  else if h = HardwareHealthComponentStateNotPresent then ⟨5, none⟩
  else if h = HardwareHealthComponentStateNotFunctioning then ⟨6, none⟩
  else if h = HardwareHealthComponentStateUnknown then ⟨7, none⟩
  else ⟨7, some (Error.new ("invalid hardware health state '" ++ h ++ "'"))⟩

/-! ## `internal/device/device.go`: the interface record -/

/-- A Go `float64`, carried as its bit pattern: no arithmetic is done on these fields by
the code embedded here. -/
structure Float64 where
  bits : Nat
  deriving DecidableEq, Repr

/-- Rate encapsulates values which refer to a time span. -/
structure Rate where
  Time : String
  Value : Float64
  deriving DecidableEq, Repr

/-- EthernetLikeInterface represents an ethernet like interface. -/
structure EthernetLikeInterface where
  Dot3StatsAlignmentErrors : Option Nat := none
  Dot3StatsFCSErrors : Option Nat := none
  Dot3StatsSingleCollisionFrames : Option Nat := none
  Dot3StatsMultipleCollisionFrames : Option Nat := none
  Dot3StatsSQETestErrors : Option Nat := none
  Dot3StatsDeferredTransmissions : Option Nat := none
  Dot3StatsLateCollisions : Option Nat := none
  Dot3StatsExcessiveCollisions : Option Nat := none
  Dot3StatsInternalMacTransmitErrors : Option Nat := none
  Dot3StatsCarrierSenseErrors : Option Nat := none
  Dot3StatsFrameTooLongs : Option Nat := none
  Dot3StatsInternalMacReceiveErrors : Option Nat := none
  Dot3HCStatsAlignmentErrors : Option Nat := none
  Dot3HCStatsFCSErrors : Option Nat := none
  Dot3HCStatsInternalMacTransmitErrors : Option Nat := none
  Dot3HCStatsFrameTooLongs : Option Nat := none
  Dot3HCStatsInternalMacReceiveErrors : Option Nat := none
  EtherStatsCRCAlignErrors : Option Nat := none
  deriving DecidableEq, Repr

/-- RadioInterface represents a radio interface. -/
structure RadioInterface where
  LevelOut : Option Int := none
  LevelIn : Option Int := none
  MaxbitrateOut : Option Nat := none
  MaxbitrateIn : Option Nat := none
  deriving DecidableEq, Repr

/-- OpticalChannel represents an optical channel. -/
structure OpticalChannel where
  Channel : Option String := none
  RXPower : Option Float64 := none
  TXPower : Option Float64 := none
  deriving DecidableEq, Repr

/-- DWDMInterface represents a DWDM interface. -/
structure DWDMInterface where
  RXPower : Option Float64 := none
  TXPower : Option Float64 := none
  CorrectedFEC : List Rate := []
  UncorrectedFEC : List Rate := []
  Channels : List OpticalChannel := []
  deriving DecidableEq, Repr

/-- OpticalTransponderInterface represents an optical transponder interface. -/
structure OpticalTransponderInterface where
  Identifier : Option String := none
  Label : Option String := none
  RXPower : Option Float64 := none
  TXPower : Option Float64 := none
  CorrectedFEC : Option Nat := none
  UncorrectedFEC : Option Nat := none
  deriving DecidableEq, Repr

/-- OpticalAmplifierInterface represents an optical amplifier interface. -/
structure OpticalAmplifierInterface where
  Identifier : Option String := none
  Label : Option String := none
  RXPower : Option Float64 := none
  TXPower : Option Float64 := none
  Gain : Option Float64 := none
  deriving DecidableEq, Repr

/-- OpticalOPMInterface represents an optical opm interface. -/
structure OpticalOPMInterface where
  Identifier : Option String := none
  Label : Option String := none
  RXPower : Option Float64 := none
  Channels : List OpticalChannel := []
  deriving DecidableEq, Repr

/-- SAPInterface represents a service access point interface. -/
structure SAPInterface where
  Inbound : Option Nat := none
  Outbound : Option Nat := none
  deriving DecidableEq, Repr

/-- VLAN includes all information about a VLAN. -/
structure VLAN where
  Name : Option String := none
  Status : Option String := none
  deriving DecidableEq, Repr

/-- VLANInformation includes all information regarding the VLANs of the interface. -/
structure VLANInformation where
  VLANs : List VLAN := []
  deriving DecidableEq, Repr

/-- Interface represents all interface values which can be read. Every field of the
source record is kept, in the order of the source. -/
structure Interface where
  IfIndex : Option Nat := none
  IfDescr : Option String := none
  IfType : Option String := none
  IfMtu : Option Nat := none
  IfSpeed : Option Nat := none
  IfPhysAddress : Option String := none
  IfAdminStatus : Option Status := none
  IfOperStatus : Option Status := none
  IfLastChange : Option Nat := none
  IfInOctets : Option Nat := none
  IfInUcastPkts : Option Nat := none
  IfInNUcastPkts : Option Nat := none
  IfInDiscards : Option Nat := none
  IfInErrors : Option Nat := none
  IfInUnknownProtos : Option Nat := none
  IfOutOctets : Option Nat := none
  IfOutUcastPkts : Option Nat := none
  IfOutNUcastPkts : Option Nat := none
  IfOutDiscards : Option Nat := none
  IfOutErrors : Option Nat := none
  IfOutQLen : Option Nat := none
  IfSpecific : Option String := none
  IfName : Option String := none
  IfInMulticastPkts : Option Nat := none
  IfInBroadcastPkts : Option Nat := none
  IfOutMulticastPkts : Option Nat := none
  IfOutBroadcastPkts : Option Nat := none
  IfHCInOctets : Option Nat := none
  IfHCInUcastPkts : Option Nat := none
  IfHCInMulticastPkts : Option Nat := none
  IfHCInBroadcastPkts : Option Nat := none
  IfHCOutOctets : Option Nat := none
  IfHCOutUcastPkts : Option Nat := none
  IfHCOutMulticastPkts : Option Nat := none
  IfHCOutBroadcastPkts : Option Nat := none
  IfHighSpeed : Option Nat := none
  IfAlias : Option String := none
  MaxSpeedIn : Option Nat := none
  MaxSpeedOut : Option Nat := none
  SubType : Option String := none
  EthernetLike : Option EthernetLikeInterface := none
  Radio : Option RadioInterface := none
  DWDM : Option DWDMInterface := none
  OpticalTransponder : Option OpticalTransponderInterface := none
  OpticalAmplifier : Option OpticalAmplifierInterface := none
  OpticalOPM : Option OpticalOPMInterface := none
  SAP : Option SAPInterface := none
  VLAN : Option VLANInformation := none
  deriving DecidableEq, Repr

/-! ## `config/codecommunicator/aviat.go` -/

/-- The typed value a response decodes to (`value.Value`): what its `UInt64` method
returns. -/
structure Value where
  UInt64 : Except Error Nat

/-- One entry of a walk result (`network.SNMPResponse`): what its `GetValue` method
returns. -/
structure SNMPResponse where
  GetValue : Except Error Value

/-- The SNMP client bound to a request: `SNMPWalk(ctx, oid)`. -/
structure SNMPClient (Ctx : Type) where
  SNMPWalk : Ctx → String → Except Error (List SNMPResponse)

/-- The SNMP part of a device connection (`con.SNMP`, a pointer in the source). -/
structure RequestDeviceConnectionSNMP (Ctx : Type) where
  SnmpClient : SNMPClient Ctx

/-- The connection bound to a request context. -/
structure RequestDeviceConnection (Ctx : Type) where
  SNMP : Option (RequestDeviceConnectionSNMP Ctx) := none

/-- The part of the wrapped provider used by the override. -/
structure deviceClass (Ctx Filter : Type) where
  GetInterfaces : Ctx → List Filter → Except Error (List Interface)

/-- The embedded base communicator: it holds the wrapped provider. -/
structure codeCommunicator (Ctx Filter : Type) where
  deviceClass : deviceClass Ctx Filter

/-- The Aviat communicator embeds `codeCommunicator`. -/
structure aviatCommunicator (Ctx Filter : Type) where
  codeCommunicator : codeCommunicator Ctx Filter

/-- The package `network`, of which the override uses `DeviceConnectionFromContext`:
the connection bound to the context and whether there is one. -/
structure network (Ctx : Type) where
  DeviceConnectionFromContext : Ctx → RequestDeviceConnection Ctx × Bool

/-- The Go library function `strings.HasPrefix`, on the characters of the strings. -/
def HasPrefix (s pre : String) : Bool :=
  pre.toList.isPrefixOf s.toList

/-- The three accumulation loops of `GetInterfaces` have one shape: every entry is
decoded with `GetValue` and `UInt64`, a failure of either returns at once with the error
wrapped in the message of the loop, and `term` of the decoded value is added to the
unsigned 64-bit accumulator. -/
def walkLoop (getMsg parseMsg : String) (term : Nat → Nat) :
    List SNMPResponse → Nat → Except Error Nat
  | [], total => .ok total
  | r :: res, total =>
    match r.GetValue with
    | .error err => .error (Error.wrap err getMsg)
    | .ok val =>
      match val.UInt64 with
      | .error err => .error (Error.wrap err parseMsg)
      | .ok n => walkLoop getMsg parseMsg term res ((total + term n) % 2 ^ 64)

/-- Lines 33-44: `maxCapacity += capacity`. -/
def maxCapacityLoop (res : List SNMPResponse) : Except Error Nat :=
  walkLoop "failed to get aviatModemStatusMaxCapacity value"
    "failed to parse aviatModemStatusMaxCapacity value" (fun capacity => capacity) res 0

/-- Lines 52-63: `maxBitRateTx += bitRate * 1000`. -/
def maxBitRateTxLoop (res : List SNMPResponse) : Except Error Nat :=
  walkLoop "failed to get aviatModemCurCapacityTx value"
    "failed to parse aviatModemCurCapacityTx value" (fun bitRate => bitRate * 1000 % 2 ^ 64)
    res 0

/-- Lines 71-82: `maxBitRateRx += bitRate * 1000`. -/
def maxBitRateRxLoop (res : List SNMPResponse) : Except Error Nat :=
  walkLoop "failed to get aviatModemCurCapacityRx value"
    "failed to parse aviatModemCurCapacityRx value" (fun bitRate => bitRate * 1000 % 2 ^ 64)
    res 0

/-- The condition of line 85: `interf.IfName != nil && strings.HasPrefix(*interf.IfName,
"Radio")`. -/
def isRadio (interf : Interface) : Bool :=
  match interf.IfName with
  | none => false
  | some name => HasPrefix name "Radio"

/-- The body of the loop of lines 84-93 on one element. -/
def enrich (maxCapacity maxBitRateTx maxBitRateRx : Nat) (interf : Interface) : Interface :=
  if isRadio interf then
    { interf with
      MaxSpeedIn := some maxCapacity
      MaxSpeedOut := some maxCapacity
      Radio := some { MaxbitrateOut := some maxBitRateTx, MaxbitrateIn := some maxBitRateRx } }
  else interf

/-- Lines 84-93: the loop over the baseline slice, which it updates in place. -/
def mergeLoop (maxCapacity maxBitRateTx maxBitRateRx : Nat) (interfaces : List Interface) :
    List Interface :=
  interfaces.map (enrich maxCapacity maxBitRateTx maxBitRateRx)

/-- What a call of `GetInterfaces` leaves behind: `ret` is the returned pair
(`(nil, err)` is `.error err`, `(interfaces, nil)` is `.ok interfaces`), `slice` is the
content, after the call, of the slice that the wrapped provider handed out (`none` when
the provider failed and handed out none). The override writes to that slice in place,
so the caller of the provider can observe `slice` whatever is returned. -/
structure Outcome where
  ret : Except Error (List Interface)
  slice : Option (List Interface)

/-- The method `aviatCommunicator.GetInterfaces` of `aviat.go`. -/
def aviatCommunicator.GetInterfaces {Ctx Filter : Type} (net : network Ctx)
    (c : aviatCommunicator Ctx Filter) (ctx : Ctx) (filter : List Filter) : Outcome :=
  match c.codeCommunicator.deviceClass.GetInterfaces ctx filter with
  | .error err => ⟨.error err, none⟩
  | .ok interfaces =>
    let (con, ok) := net.DeviceConnectionFromContext ctx
    match ok, con.SNMP with
    | false, _ => ⟨.error (Error.new "snmp client is empty"), some interfaces⟩
    | true, none => ⟨.error (Error.new "snmp client is empty"), some interfaces⟩
    | true, some snmp =>
      -- aviatModemStatusMaxCapacity
      match snmp.SnmpClient.SNMPWalk ctx "1.3.6.1.4.1.2509.9.3.2.4.1.1" with
      | .error err =>
        ⟨.error (Error.wrap err "failed to get aviatModemStatusMaxCapacity"), some interfaces⟩
      | .ok res =>
      match maxCapacityLoop res with
      | .error err => ⟨.error err, some interfaces⟩
      | .ok maxCapacity =>
      -- aviatModemCurCapacityTx
      match snmp.SnmpClient.SNMPWalk ctx "1.3.6.1.4.1.2509.9.3.2.1.1.11" with
      | .error err =>
        ⟨.error (Error.wrap err "failed to get aviatModemCurCapacityTx"), some interfaces⟩
      | .ok res =>
      match maxBitRateTxLoop res with
      | .error err => ⟨.error err, some interfaces⟩
      | .ok maxBitRateTx =>
      -- aviatModemCurCapacityRx
      match snmp.SnmpClient.SNMPWalk ctx "1.3.6.1.4.1.2509.9.3.2.1.1.12" with
      | .error err =>
        ⟨.error (Error.wrap err "failed to get aviatModemCurCapacityRx"), some interfaces⟩
      | .ok res =>
      match maxBitRateRxLoop res with
      | .error err => ⟨.error err, some interfaces⟩
      | .ok maxBitRateRx =>
        let interfaces := mergeLoop maxCapacity maxBitRateTx maxBitRateRx interfaces
        ⟨.ok interfaces, some interfaces⟩

/-! ## Stating the properties of `GetInterfaces` -/

/-- A walk entry whose value decodes to the unsigned integer `n`. -/
def SNMPResponse.ofUInt64 (n : Nat) : SNMPResponse :=
  ⟨.ok ⟨.ok n⟩⟩

/-- The environment of a successful invocation: the wrapped provider returns `baseline`,
the context carries a connection with an SNMP part, and the three walks succeed with
entries that all decode, to the values `cap` (max capacity), `tx` and `rx`. -/
structure Succeeds {Ctx Filter : Type} (net : network Ctx) (c : aviatCommunicator Ctx Filter)
    (ctx : Ctx) (filter : List Filter) (baseline : List Interface) (cap tx rx : List Nat) :
    Prop where
  baseline_ok : c.codeCommunicator.deviceClass.GetInterfaces ctx filter = .ok baseline
  port_bound : (net.DeviceConnectionFromContext ctx).2 = true
  walks_ok : ∃ snmp, (net.DeviceConnectionFromContext ctx).1.SNMP = some snmp ∧
    snmp.SnmpClient.SNMPWalk ctx "1.3.6.1.4.1.2509.9.3.2.4.1.1"
      = .ok (cap.map SNMPResponse.ofUInt64) ∧
    snmp.SnmpClient.SNMPWalk ctx "1.3.6.1.4.1.2509.9.3.2.1.1.11"
      = .ok (tx.map SNMPResponse.ofUInt64) ∧
    snmp.SnmpClient.SNMPWalk ctx "1.3.6.1.4.1.2509.9.3.2.1.1.12"
      = .ok (rx.map SNMPResponse.ofUInt64)

/-- All four enrichment fields of an interface are set: `MaxSpeedIn`, `MaxSpeedOut`,
`Radio.MaxbitrateOut` and `Radio.MaxbitrateIn` are not `nil`. -/
def hasEnrichmentFields (interf : Interface) : Bool :=
  interf.MaxSpeedIn.isSome && interf.MaxSpeedOut.isSome &&
    match interf.Radio with
    | none => false
    | some radio => radio.MaxbitrateOut.isSome && radio.MaxbitrateIn.isSome

/-! ## Fixed environments, for evaluating `GetInterfaces` -/

/-- A client that answers the three walks of the override with the given results and
every other walk with the empty sequence. -/
def fixedClient (cap tx rx : Except Error (List SNMPResponse)) : SNMPClient Unit where
  SNMPWalk := fun _ oid =>
    if oid = "1.3.6.1.4.1.2509.9.3.2.4.1.1" then cap
    else if oid = "1.3.6.1.4.1.2509.9.3.2.1.1.11" then tx
    else if oid = "1.3.6.1.4.1.2509.9.3.2.1.1.12" then rx
    else .ok []

/-- A context lookup that finds a connection whose SNMP part is `fixedClient`. -/
def boundNetwork (cap tx rx : Except Error (List SNMPResponse)) : network Unit where
  DeviceConnectionFromContext := fun _ => (⟨some ⟨fixedClient cap tx rx⟩⟩, true)

/-- A communicator whose wrapped provider returns `r` for every context and filter. -/
def fixedCommunicator (r : Except Error (List Interface)) : aviatCommunicator Unit Unit where
  codeCommunicator := ⟨⟨fun _ _ => r⟩⟩

/-- A walk result whose entries decode to the given values. -/
def walkOf (vs : List Nat) : Except Error (List SNMPResponse) :=
  .ok (vs.map SNMPResponse.ofUInt64)

/-- An interface that does not match the selection predicate and to which the baseline
gave all four enrichment fields. -/
def ethWithRadioFields : Interface :=
  { IfName := some "eth0", MaxSpeedIn := some 1, MaxSpeedOut := some 1,
    Radio := some { MaxbitrateOut := some 1, MaxbitrateIn := some 1 } }

/-- The interface of the end-to-end scenario: named `Radio0/1`, no radio block. -/
def radio01 : Interface :=
  { IfName := some "Radio0/1" }


/-! ## The walks issued by `GetInterfaces` -/

/-- The method `aviatCommunicator.GetInterfaces` once more, with the calls of `SNMPWalk`
that it makes: the second component lists the OIDs walked, in the order of the calls. -/
def aviatCommunicator.GetInterfacesTraced {Ctx Filter : Type} (net : network Ctx)
    (c : aviatCommunicator Ctx Filter) (ctx : Ctx) (filter : List Filter) :
    Outcome × List String :=
  match c.codeCommunicator.deviceClass.GetInterfaces ctx filter with
  | .error err => (⟨.error err, none⟩, [])
  | .ok interfaces =>
    let (con, ok) := net.DeviceConnectionFromContext ctx
    match ok, con.SNMP with
    | false, _ => (⟨.error (Error.new "snmp client is empty"), some interfaces⟩, [])
    | true, none => (⟨.error (Error.new "snmp client is empty"), some interfaces⟩, [])
    | true, some snmp =>
      match snmp.SnmpClient.SNMPWalk ctx "1.3.6.1.4.1.2509.9.3.2.4.1.1" with
      | .error err =>
        (⟨.error (Error.wrap err "failed to get aviatModemStatusMaxCapacity"), some interfaces⟩,
          ["1.3.6.1.4.1.2509.9.3.2.4.1.1"])
      | .ok res =>
      match maxCapacityLoop res with
      | .error err => (⟨.error err, some interfaces⟩, ["1.3.6.1.4.1.2509.9.3.2.4.1.1"])
      | .ok maxCapacity =>
      match snmp.SnmpClient.SNMPWalk ctx "1.3.6.1.4.1.2509.9.3.2.1.1.11" with
      | .error err =>
        (⟨.error (Error.wrap err "failed to get aviatModemCurCapacityTx"), some interfaces⟩,
          ["1.3.6.1.4.1.2509.9.3.2.4.1.1", "1.3.6.1.4.1.2509.9.3.2.1.1.11"])
      | .ok res =>
      match maxBitRateTxLoop res with
      | .error err =>
        (⟨.error err, some interfaces⟩,
          ["1.3.6.1.4.1.2509.9.3.2.4.1.1", "1.3.6.1.4.1.2509.9.3.2.1.1.11"])
      | .ok maxBitRateTx =>
      match snmp.SnmpClient.SNMPWalk ctx "1.3.6.1.4.1.2509.9.3.2.1.1.12" with
      | .error err =>
        (⟨.error (Error.wrap err "failed to get aviatModemCurCapacityRx"), some interfaces⟩,
          ["1.3.6.1.4.1.2509.9.3.2.4.1.1", "1.3.6.1.4.1.2509.9.3.2.1.1.11",
            "1.3.6.1.4.1.2509.9.3.2.1.1.12"])
      | .ok res =>
      match maxBitRateRxLoop res with
      | .error err =>
        (⟨.error err, some interfaces⟩,
          ["1.3.6.1.4.1.2509.9.3.2.4.1.1", "1.3.6.1.4.1.2509.9.3.2.1.1.11",
            "1.3.6.1.4.1.2509.9.3.2.1.1.12"])
      | .ok maxBitRateRx =>
        let interfaces := mergeLoop maxCapacity maxBitRateTx maxBitRateRx interfaces
        (⟨.ok interfaces, some interfaces⟩,
          ["1.3.6.1.4.1.2509.9.3.2.4.1.1", "1.3.6.1.4.1.2509.9.3.2.1.1.11",
            "1.3.6.1.4.1.2509.9.3.2.1.1.12"])

/-- The entry does not decode to an unsigned integer: its `GetValue` fails, or the
`UInt64` of its value fails. -/
def SNMPResponse.decodeFails (r : SNMPResponse) : Bool :=
  match r.GetValue with
  | .error _ => true
  | .ok val =>
    match val.UInt64 with
    | .error _ => true
    | .ok _ => false

/-- What the walk of `oid` returns in the context `ctx`, `none` when the connection of
the context has no SNMP part. -/
def walkResult {Ctx : Type} (net : network Ctx) (ctx : Ctx) (oid : String) :
    Option (Except Error (List SNMPResponse)) :=
  (net.DeviceConnectionFromContext ctx).1.SNMP.map
    (fun snmp => snmp.SnmpClient.SNMPWalk ctx oid)

/-- A context lookup that finds no connection. -/
def unboundNetwork : network Unit where
  DeviceConnectionFromContext := fun _ => (⟨none⟩, false)

/-- A context lookup that finds a connection without SNMP part. -/
def noSNMPNetwork : network Unit where
  DeviceConnectionFromContext := fun _ => (⟨none⟩, true)

/-- An entry whose `GetValue` fails. -/
def getValueFailure : SNMPResponse :=
  ⟨.error (Error.new "no such instance")⟩

/-- An entry whose value is not an unsigned integer. -/
def parseFailure : SNMPResponse :=
  ⟨.ok ⟨.error (Error.new "value is not a number")⟩⟩

/-- A matched interface to which the baseline gave values for all enrichment fields, and
radio levels. -/
def radioWithOldFields : Interface :=
  { IfName := some "Radio1", IfSpeed := some 100, MaxSpeedIn := some 1, MaxSpeedOut := some 2,
    Radio := some { LevelOut := some 7, LevelIn := some (-40), MaxbitrateOut := some 3,
                    MaxbitrateIn := some 4 } }

/-! ## `internal/device/device.go`: device properties in a context -/

/-- Properties are properties that can be determined for a device. -/
structure Properties where
  Vendor : Option String := none
  Model : Option String := none
  ModelSeries : Option String := none
  SerialNumber : Option String := none
  OSVersion : Option String := none
  deriving DecidableEq, Repr

/-- Device represents a device and has the same structure as Response. -/
structure Device where
  Class : String := ""
  Properties : Properties := {}
  deriving DecidableEq, Repr

/-- A key of a context value. Go compares keys as interface values, by dynamic type and
value: `ctxKey n` is a value of the unexported type `ctxKey int` of the package `device`,
`other k` is a key of any other type. -/
inductive ContextKey (K : Type) where
  | ctxKey (n : Int)
  | other (k : K)
  deriving DecidableEq, Repr

/-- The constant `devicePropertiesKey ctxKey = iota + 1`, the first of its block. -/
def devicePropertiesKey {K : Type} : ContextKey K :=
  .ctxKey (0 + 1)

/-- A value bound in a context, an `interface{}`: a `Device`, or a value of another
type. -/
inductive ContextValue (V : Type) where
  | device (d : Device)
  | other (v : V)
  deriving DecidableEq, Repr

/-- The Go library type `context.Context`, as far as values go: the empty context, or a
parent extended by `context.WithValue(parent, key, val)`. -/
inductive Context (K V : Type) where
  | background
  | withValue (parent : Context K V) (key : ContextKey K) (val : ContextValue V)

/-- The Go library method `Value` of a context: the value of the innermost binding of
`key`, `nil` when there is none. -/
def Context.Value {K V : Type} [DecidableEq K] :
    Context K V → ContextKey K → Option (ContextValue V)
  | .background, _ => none
  | .withValue parent key val, k => if key = k then some val else parent.Value k

/-- NewContextWithDeviceProperties returns a new context with the device properties. -/
def NewContextWithDeviceProperties {K V : Type} (ctx : Context K V) (properties : Device) :
    Context K V :=
  .withValue ctx devicePropertiesKey (.device properties)

/-- DevicePropertiesFromContext returns the device properties from the context: the
type assertion `ctx.Value(devicePropertiesKey).(Device)`, which gives the zero `Device`
and `false` when the value is `nil` or of another type. -/
def DevicePropertiesFromContext {K V : Type} [DecidableEq K] (ctx : Context K V) :
    Device × Bool :=
  match ctx.Value devicePropertiesKey with
  | some (.device properties) => (properties, true)
  | _ => ({}, false)

/-- Some binding of the chain binds a `Device` under `devicePropertiesKey`. -/
def Context.deviceBound {K V : Type} [DecidableEq K] : Context K V → Bool
  | .background => false
  | .withValue parent key val =>
    (decide (key = devicePropertiesKey) &&
      match val with
      | .device _ => true
      | .other _ => false) || parent.deviceBound

/-! ## `internal/device/device.go`: the struct tags -/

/-- A field of a struct of `device.go` with its serialization tags: the name of the
struct, the name and the Go type of the field, and the values of the `yaml`, `json` and
`xml` keys of its tag, as they are written in the source. -/
structure StructField where
  struct : String
  field : String
  typ : String
  yaml : String
  json : String
  xml : String
  deriving DecidableEq, Repr

/-- The fields of `Device` and `Properties`. -/
def devicePropertiesFields : List StructField :=
  [⟨"Device", "Class", "string", "class", "class", "class"⟩,
    ⟨"Device", "Properties", "Properties", "properties", "properties", "properties"⟩,
    ⟨"Properties", "Vendor", "*string", "vendor", "vendor", "vendor"⟩,
    ⟨"Properties", "Model", "*string", "model", "model", "model"⟩,
    ⟨"Properties", "ModelSeries", "*string", "model_series", "model_series", "model_series"⟩,
    ⟨"Properties", "SerialNumber", "*string", "serial_number", "serial_number", "serial_number"⟩,
    ⟨"Properties", "OSVersion", "*string", "os_version", "os_version", "os_version"⟩]

/-- The fields of `Interface`. -/
def interfaceFields : List StructField :=
  [⟨"Interface", "IfIndex", "*uint64", "ifIndex", "ifIndex", "ifIndex"⟩,
    ⟨"Interface", "IfDescr", "*string", "ifDescr", "ifDescr", "ifDescr"⟩,
    ⟨"Interface", "IfType", "*string", "ifType", "ifType", "ifType"⟩,
    ⟨"Interface", "IfMtu", "*uint64", "ifMtu", "ifMtu", "ifMtu"⟩,
    ⟨"Interface", "IfSpeed", "*uint64", "ifSpeed", "ifSpeed", "ifSpeed"⟩,
    ⟨"Interface", "IfPhysAddress", "*string", "ifPhysAddress", "ifPhysAddress", "ifPhysAddress"⟩,
    ⟨"Interface", "IfAdminStatus", "*Status", "ifAdminStatus", "ifAdminStatus", "ifAdminStatus"⟩,
    ⟨"Interface", "IfOperStatus", "*Status", "ifOperStatus", "ifOperStatus", "ifOperStatus"⟩,
    ⟨"Interface", "IfLastChange", "*uint64", "ifLastChange", "ifLastChange", "ifLastChange"⟩,
    ⟨"Interface", "IfInOctets", "*uint64", "ifInOctets", "ifInOctets", "ifInOctets"⟩,
    ⟨"Interface", "IfInUcastPkts", "*uint64", "ifInUcastPkts", "ifInUcastPkts", "ifInUcastPkts"⟩,
    ⟨"Interface", "IfInNUcastPkts", "*uint64", "ifInNUcastPkts", "ifInNUcastPkts", "ifInNUcastPkts"⟩,
    ⟨"Interface", "IfInDiscards", "*uint64", "ifInDiscards", "ifInDiscards", "ifInDiscards"⟩,
    ⟨"Interface", "IfInErrors", "*uint64", "ifInErrors", "ifInErrors", "ifInErrors"⟩,
    ⟨"Interface", "IfInUnknownProtos", "*uint64",
      "ifInUnknownProtos", "ifInUnknownProtos", "ifInUnknownProtos"⟩,
    ⟨"Interface", "IfOutOctets", "*uint64", "ifOutOctets", "ifOutOctets", "ifOutOctets"⟩,
    ⟨"Interface", "IfOutUcastPkts", "*uint64", "ifOutUcastPkts", "ifOutUcastPkts", "ifOutUcastPkts"⟩,
    ⟨"Interface", "IfOutNUcastPkts", "*uint64",
      "ifOutNUcastPkts", "ifOutNUcastPkts", "ifOutNUcastPkts"⟩,
    ⟨"Interface", "IfOutDiscards", "*uint64", "ifOutDiscards", "ifOutDiscards", "ifOutDiscards"⟩,
    ⟨"Interface", "IfOutErrors", "*uint64", "ifOutErrors", "ifOutErrors", "ifOutErrors"⟩,
    ⟨"Interface", "IfOutQLen", "*uint64", "ifOutQLen", "ifOutQLen", "ifOutQLen"⟩,
    ⟨"Interface", "IfSpecific", "*string", "ifSpecific", "ifSpecific", "ifSpecific"⟩,
    ⟨"Interface", "IfName", "*string", "ifName", "ifName", "ifName"⟩,
    ⟨"Interface", "IfInMulticastPkts", "*uint64",
      "ifInMulticastPkts", "ifInMulticastPkts", "ifInMulticastPkts"⟩,
    ⟨"Interface", "IfInBroadcastPkts", "*uint64",
      "ifInBroadcastPkts", "ifInBroadcastPkts", "ifInBroadcastPkts"⟩,
    ⟨"Interface", "IfOutMulticastPkts", "*uint64",
      "ifOutMulticastPkts", "ifOutMulticastPkts", "ifOutMulticastPkts"⟩,
    ⟨"Interface", "IfOutBroadcastPkts", "*uint64",
      "ifOutBroadcastPkts", "ifOutBroadcastPkts", "ifOutBroadcastPkts"⟩,
    ⟨"Interface", "IfHCInOctets", "*uint64", "ifHCInOctets", "ifHCInOctets", "ifHCInOctets"⟩,
    ⟨"Interface", "IfHCInUcastPkts", "*uint64",
      "ifHCInUcastPkts", "ifHCInUcastPkts", "ifHCInUcastPkts"⟩,
    ⟨"Interface", "IfHCInMulticastPkts", "*uint64",
      "ifHCInMulticastPkts", "ifHCInMulticastPkts", "ifHCInMulticastPkts"⟩,
    ⟨"Interface", "IfHCInBroadcastPkts", "*uint64",
      "ifHCInBroadcastPkts", "ifHCInBroadcastPkts", "ifHCInBroadcastPkts"⟩,
    ⟨"Interface", "IfHCOutOctets", "*uint64", "ifHCOutOctets", "ifHCOutOctets", "ifHCOutOctets"⟩,
    ⟨"Interface", "IfHCOutUcastPkts", "*uint64",
      "ifHCOutUcastPkts", "ifHCOutUcastPkts", "ifHCOutUcastPkts"⟩,
    ⟨"Interface", "IfHCOutMulticastPkts", "*uint64",
      "ifHCOutMulticastPkts", "ifHCOutMulticastPkts", "ifHCOutMulticastPkts"⟩,
    ⟨"Interface", "IfHCOutBroadcastPkts", "*uint64",
      "ifHCOutBroadcastPkts", "ifHCOutBroadcastPkts", "ifHCOutBroadcastPkts"⟩,
    ⟨"Interface", "IfHighSpeed", "*uint64", "ifHighSpeed", "ifHighSpeed", "ifHighSpeed"⟩,
    ⟨"Interface", "IfAlias", "*string", "ifAlias", "ifAlias", "ifAlias"⟩,
    ⟨"Interface", "MaxSpeedIn", "*uint64", "max_speed_in", "max_speed_in", "max_speed_in"⟩,
    ⟨"Interface", "MaxSpeedOut", "*uint64", "max_speed_out", "max_speed_out", "max_speed_out"⟩,
    ⟨"Interface", "SubType", "*string", "-", "-", "-"⟩,
    ⟨"Interface", "EthernetLike", "*EthernetLikeInterface",
      "ethernet_like,omitempty", "ethernet_like,omitempty", "ethernet_like,omitempty"⟩,
    ⟨"Interface", "Radio", "*RadioInterface",
      "radio,omitempty", "radio,omitempty", "radio,omitempty"⟩,
    ⟨"Interface", "DWDM", "*DWDMInterface", "dwdm,omitempty", "dwdm,omitempty", "dwdm,omitempty"⟩,
    ⟨"Interface", "OpticalTransponder", "*OpticalTransponderInterface",
      "optical_transponder,omitempty", "optical_transponder,omitempty",
      "optical_transponder,omitempty"⟩,
    ⟨"Interface", "OpticalAmplifier", "*OpticalAmplifierInterface",
      "optical_amplifier,omitempty", "optical_amplifier,omitempty", "optical_amplifier,omitempty"⟩,
    ⟨"Interface", "OpticalOPM", "*OpticalOPMInterface",
      "optical_opm,omitempty", "optical_opm,omitempty", "optical_opm,omitempty"⟩,
    ⟨"Interface", "SAP", "*SAPInterface", "sap,omitempty", "sap,omitempty", "sap,omitempty"⟩,
    ⟨"Interface", "VLAN", "*VLANInformation", "vlan,omitempty", "vlan,omitempty", "vlan,omitempty"⟩]

/-- The fields of the technology blocks of an interface. -/
def technologyFields : List StructField :=
  [⟨"EthernetLikeInterface", "Dot3StatsAlignmentErrors", "*uint64",
      "dot3StatsAlignmentErrors,omitempty", "dot3StatsAlignmentErrors,omitempty",
      "dot3StatsAlignmentErrors,omitempty"⟩,
    ⟨"EthernetLikeInterface", "Dot3StatsFCSErrors", "*uint64",
      "dot3StatsFCSErrors,omitempty", "dot3StatsFCSErrors,omitempty",
      "dot3StatsFCSErrors,omitempty"⟩,
    ⟨"EthernetLikeInterface", "Dot3StatsSingleCollisionFrames", "*uint64",
      "dot3StatsSingleCollisionFrames,omitempty", "dot3StatsSingleCollisionFrames,omitempty",
      "dot3StatsSingleCollisionFrames,omitempty"⟩,
    ⟨"EthernetLikeInterface", "Dot3StatsMultipleCollisionFrames", "*uint64",
      "dot3StatsMultipleCollisionFrames,omitempty", "dot3StatsMultipleCollisionFrames,omitempty",
      "dot3StatsMultipleCollisionFrames,omitempty"⟩,
    ⟨"EthernetLikeInterface", "Dot3StatsSQETestErrors", "*uint64",
      "dot3StatsSQETestErrors,omitempty", "dot3StatsSQETestErrors,omitempty",
      "dot3StatsSQETestErrors,omitempty"⟩,
    ⟨"EthernetLikeInterface", "Dot3StatsDeferredTransmissions", "*uint64",
      "dot3StatsDeferredTransmissions,omitempty", "dot3StatsDeferredTransmissions,omitempty",
      "dot3StatsDeferredTransmissions,omitempty"⟩,
    ⟨"EthernetLikeInterface", "Dot3StatsLateCollisions", "*uint64",
      "dot3StatsLateCollisions,omitempty", "dot3StatsLateCollisions,omitempty",
      "dot3StatsLateCollisions,omitempty"⟩,
    ⟨"EthernetLikeInterface", "Dot3StatsExcessiveCollisions", "*uint64",
      "dot3StatsExcessiveCollisions,omitempty", "dot3StatsExcessiveCollisions,omitempty",
      "dot3StatsExcessiveCollisions,omitempty"⟩,
    ⟨"EthernetLikeInterface", "Dot3StatsInternalMacTransmitErrors", "*uint64",
      "dot3StatsInternalMacTransmitErrors,omitempty", "dot3StatsInternalMacTransmitErrors,omitempty",
      "dot3StatsInternalMacTransmitErrors,omitempty"⟩,
    ⟨"EthernetLikeInterface", "Dot3StatsCarrierSenseErrors", "*uint64",
      "dot3StatsCarrierSenseErrors,omitempty", "dot3StatsCarrierSenseErrors,omitempty",
      "dot3StatsCarrierSenseErrors,omitempty"⟩,
    ⟨"EthernetLikeInterface", "Dot3StatsFrameTooLongs", "*uint64",
      "dot3StatsFrameTooLongs,omitempty", "dot3StatsFrameTooLongs,omitempty",
      "dot3StatsFrameTooLongs,omitempty"⟩,
    ⟨"EthernetLikeInterface", "Dot3StatsInternalMacReceiveErrors", "*uint64",
      "dot3StatsInternalMacReceiveErrors,omitempty", "dot3StatsInternalMacReceiveErrors,omitempty",
      "dot3StatsInternalMacReceiveErrors,omitempty"⟩,
    ⟨"EthernetLikeInterface", "Dot3HCStatsAlignmentErrors", "*uint64",
      "dot3HCStatsAlignmentErrors,omitempty", "dot3HCStatsAlignmentErrors,omitempty",
      "dot3HCStatsAlignmentErrors,omitempty"⟩,
    ⟨"EthernetLikeInterface", "Dot3HCStatsFCSErrors", "*uint64",
      "dot3HCStatsFCSErrors,omitempty", "dot3HCStatsFCSErrors,omitempty",
      "dot3HCStatsFCSErrors,omitempty"⟩,
    ⟨"EthernetLikeInterface", "Dot3HCStatsInternalMacTransmitErrors", "*uint64",
      "dot3HCStatsInternalMacTransmitErrors,omitempty", "dot3HCStatsInternalMacTransmitErrors,omitempty",
      "dot3HCStatsInternalMacTransmitErrors,omitempty"⟩,
    ⟨"EthernetLikeInterface", "Dot3HCStatsFrameTooLongs", "*uint64",
      "dot3HCStatsFrameTooLongs,omitempty", "dot3HCStatsFrameTooLongs,omitempty",
      "dot3HCStatsFrameTooLongs,omitempty"⟩,
    ⟨"EthernetLikeInterface", "Dot3HCStatsInternalMacReceiveErrors", "*uint64",
      "dot3HCStatsInternalMacReceiveErrors,omitempty", "dot3HCStatsInternalMacReceiveErrors,omitempty",
      "dot3HCStatsInternalMacReceiveErrors,omitempty"⟩,
    ⟨"EthernetLikeInterface", "EtherStatsCRCAlignErrors", "*uint64",
      "etherStatsCRCAlignErrors,omitempty", "etherStatsCRCAlignErrors,omitempty",
      "etherStatsCRCAlignErrors,omitempty"⟩,
    ⟨"RadioInterface", "LevelOut", "*int64",
      "level_out,omitempty", "level_out,omitempty", "level_out,omitempty"⟩,
    ⟨"RadioInterface", "LevelIn", "*int64",
      "level_in,omitempty", "level_in,omitempty", "level_in,omitempty"⟩,
    ⟨"RadioInterface", "MaxbitrateOut", "*uint64",
      "maxbitrate_out,omitempty", "maxbitrate_out,omitempty", "maxbitrate_out,omitempty"⟩,
    ⟨"RadioInterface", "MaxbitrateIn", "*uint64",
      "maxbitrate_in,omitempty", "maxbitrate_in,omitempty", "maxbitrate_in,omitempty"⟩,
    ⟨"DWDMInterface", "RXPower", "*float64",
      "rx_power,omitempty", "rx_power,omitempty", "rx_power,omitempty"⟩,
    ⟨"DWDMInterface", "TXPower", "*float64",
      "tx_power,omitempty", "tx_power,omitempty", "tx_power,omitempty"⟩,
    ⟨"DWDMInterface", "CorrectedFEC", "[]Rate",
      "corrected_fec,omitempty", "corrected_fec,omitempty", "corrected_fec,omitempty"⟩,
    ⟨"DWDMInterface", "UncorrectedFEC", "[]Rate",
      "uncorrected_fec,omitempty", "uncorrected_fec,omitempty", "uncorrected_fec,omitempty"⟩,
    ⟨"DWDMInterface", "Channels", "[]OpticalChannel",
      "channels,omitempty", "channels,omitempty", "channels,omitempty"⟩,
    ⟨"OpticalTransponderInterface", "Identifier", "*string",
      "identifier,omitempty", "identifier,omitempty", "identifier,omitempty"⟩,
    ⟨"OpticalTransponderInterface", "Label", "*string",
      "label,omitempty", "label,omitempty", "label,omitempty"⟩,
    ⟨"OpticalTransponderInterface", "RXPower", "*float64",
      "rx_power,omitempty", "rx_power,omitempty", "rx_power,omitempty"⟩,
    ⟨"OpticalTransponderInterface", "TXPower", "*float64",
      "tx_power,omitempty", "tx_power,omitempty", "tx_power,omitempty"⟩,
    ⟨"OpticalTransponderInterface", "CorrectedFEC", "*uint64",
      "corrected_fec,omitempty", "corrected_fec,omitempty", "corrected_fec,omitempty"⟩,
    ⟨"OpticalTransponderInterface", "UncorrectedFEC", "*uint64",
      "uncorrected_fec,omitempty", "uncorrected_fec,omitempty", "uncorrected_fec,omitempty"⟩,
    ⟨"OpticalAmplifierInterface", "Identifier", "*string",
      "identifier,omitempty", "identifier,omitempty", "identifier,omitempty"⟩,
    ⟨"OpticalAmplifierInterface", "Label", "*string",
      "label,omitempty", "label,omitempty", "label,omitempty"⟩,
    ⟨"OpticalAmplifierInterface", "RXPower", "*float64",
      "rx_power,omitempty", "rx_power,omitempty", "rx_power,omitempty"⟩,
    ⟨"OpticalAmplifierInterface", "TXPower", "*float64",
      "tx_power,omitempty", "tx_power,omitempty", "tx_power,omitempty"⟩,
    ⟨"OpticalAmplifierInterface", "Gain", "*float64",
      "gain,omitempty", "gain,omitempty", "gain,omitempty"⟩,
    ⟨"OpticalOPMInterface", "Identifier", "*string",
      "identifier,omitempty", "identifier,omitempty", "identifier,omitempty"⟩,
    ⟨"OpticalOPMInterface", "Label", "*string",
      "label,omitempty", "label,omitempty", "label,omitempty"⟩,
    ⟨"OpticalOPMInterface", "RXPower", "*float64",
      "rx_power,omitempty", "rx_power,omitempty", "rx_power,omitempty"⟩,
    ⟨"OpticalOPMInterface", "Channels", "[]OpticalChannel",
      "channels,omitempty", "channels,omitempty", "channels,omitempty"⟩,
    ⟨"OpticalChannel", "Channel", "*string",
      "channel,omitempty", "channel,omitempty", "channel,omitempty"⟩,
    ⟨"OpticalChannel", "RXPower", "*float64",
      "rx_power,omitempty", "rx_power,omitempty", "rx_power,omitempty"⟩,
    ⟨"OpticalChannel", "TXPower", "*float64",
      "tx_power,omitempty", "tx_power,omitempty", "tx_power,omitempty"⟩,
    ⟨"SAPInterface", "Inbound", "*uint64",
      "inbound,omitempty", "inbound,omitempty", "inbound,omitempty"⟩,
    ⟨"SAPInterface", "Outbound", "*uint64",
      "outbound,omitempty", "outbound,omitempty", "outbound,omitempty"⟩,
    ⟨"VLANInformation", "VLANs", "[]VLAN", "vlans,omitempty", "vlans,omitempty", "vlans,omitempty"⟩,
    ⟨"VLAN", "Name", "*string", "name,omitempty", "name,omitempty", "name,omitempty"⟩,
    ⟨"VLAN", "Status", "*string", "status,omitempty", "status,omitempty", "status,omitempty"⟩]

/-- The fields of the component groups CPU, memory, disk, UPS, server and SBC, and of their
entries. -/
def componentFields : List StructField :=
  [⟨"CPUComponent", "CPUs", "[]CPU", "cpus", "cpus", "cpus"⟩,
    ⟨"CPU", "Label", "*string", "label", "label", "label"⟩,
    ⟨"CPU", "Load", "*float64", "load", "load", "load"⟩,
    ⟨"MemoryComponent", "Pools", "[]MemoryPool", "pools", "pools", "pools"⟩,
    ⟨"MemoryPool", "Label", "*string", "label", "label", "label"⟩,
    ⟨"MemoryPool", "Usage", "*float64", "usage", "usage", "usage"⟩,
    ⟨"MemoryPool", "PerformanceDataPointModifier", "PerformanceDataPointModifier", "-", "-", "-"⟩,
    ⟨"DiskComponent", "Storages", "[]DiskComponentStorage", "storages", "storages", "storages"⟩,
    ⟨"DiskComponentStorage", "Type", "*string", "type", "type", "type"⟩,
    ⟨"DiskComponentStorage", "Description", "*string", "description", "description", "description"⟩,
    ⟨"DiskComponentStorage", "Available", "*int", "available", "available", "available"⟩,
    ⟨"DiskComponentStorage", "Used", "*int", "used", "used", "used"⟩,
    ⟨"UPSComponent", "AlarmLowVoltageDisconnect", "*int",
      "alarm_low_voltage_disconnect", "alarm_low_voltage_disconnect",
      "alarm_low_voltage_disconnect"⟩,
    ⟨"UPSComponent", "BatteryAmperage", "*float64",
      "battery_amperage ", "battery_amperage ", "battery_amperage"⟩,
    ⟨"UPSComponent", "BatteryCapacity", "*float64",
      "battery_capacity", "battery_capacity", "battery_capacity"⟩,
    ⟨"UPSComponent", "BatteryCurrent", "*float64",
      "battery_current", "battery_current", "battery_current"⟩,
    ⟨"UPSComponent", "BatteryRemainingTime", "*float64",
      "battery_remaining_time", "battery_remaining_time", "battery_remaining_time"⟩,
    ⟨"UPSComponent", "BatteryTemperature", "*float64",
      "battery_temperature", "battery_temperature", "battery_temperature"⟩,
    ⟨"UPSComponent", "BatteryVoltage", "*float64",
      "battery_voltage", "battery_voltage", "battery_voltage"⟩,
    ⟨"UPSComponent", "CurrentLoad", "*float64", "current_load", "current_load", "current_load"⟩,
    ⟨"UPSComponent", "MainsVoltageApplied", "*bool",
      "mains_voltage_applied", "mains_voltage_applied", "mains_voltage_applied"⟩,
    ⟨"UPSComponent", "RectifierCurrent", "*float64",
      "rectifier_current", "rectifier_current", "rectifier_current"⟩,
    ⟨"UPSComponent", "SystemVoltage", "*float64",
      "system_voltage", "system_voltage", "system_voltage"⟩,
    ⟨"ServerComponent", "Procs", "*int", "procs", "procs", "procs"⟩,
    ⟨"ServerComponent", "Users", "*int", "users", "users", "users"⟩,
    ⟨"SBCComponent", "Agents", "[]SBCComponentAgent", "agents", "agents", "agents"⟩,
    ⟨"SBCComponent", "Realms", "[]SBCComponentRealm", "realms", "realms", "realms"⟩,
    ⟨"SBCComponent", "GlobalCallPerSecond", "*int",
      "global_call_per_second", "global_call_per_second", "global_call_per_second"⟩,
    ⟨"SBCComponent", "GlobalConcurrentSessions", "*int",
      "global_concurrent_sessions ", "global_concurrent_sessions ", "global_concurrent_sessions"⟩,
    ⟨"SBCComponent", "ActiveLocalContacts", "*int",
      "active_local_contacts", "active_local_contacts", "active_local_contacts"⟩,
    ⟨"SBCComponent", "TranscodingCapacity", "*int",
      "transcoding_capacity", "transcoding_capacity", "transcoding_capacity"⟩,
    ⟨"SBCComponent", "LicenseCapacity", "*int",
      "license_capacity", "license_capacity", "license_capacity"⟩,
    ⟨"SBCComponent", "SystemRedundancy", "*int",
      "system_redundancy", "system_redundancy", "system_redundancy"⟩,
    ⟨"SBCComponent", "SystemHealthScore", "*int",
      "system_health_score", "system_health_score", "system_health_score"⟩,
    ⟨"SBCComponentAgent", "Hostname", "*string", "hostname", "hostname", "hostname"⟩,
    ⟨"SBCComponentAgent", "CurrentActiveSessionsInbound", "*int",
      "current_active_sessions_inbound", "current_active_sessions_inbound",
      "current_active_sessions_inbound"⟩,
    ⟨"SBCComponentAgent", "CurrentSessionRateInbound", "*int",
      "current_session_rate_inbound", "current_session_rate_inbound",
      "current_session_rate_inbound"⟩,
    ⟨"SBCComponentAgent", "CurrentActiveSessionsOutbound", "*int",
      "current_active_sessions_outbound", "current_active_sessions_outbound",
      "current_active_sessions_outbound"⟩,
    ⟨"SBCComponentAgent", "CurrentSessionRateOutbound", "*int",
      "current_session_rate_outbound", "current_session_rate_outbound",
      "current_session_rate_outbound"⟩,
    ⟨"SBCComponentAgent", "PeriodASR", "*int", "period_asr", "period_asr", "period_asr"⟩,
    ⟨"SBCComponentAgent", "Status", "*int", "status", "status", "status"⟩,
    ⟨"SBCComponentRealm", "Name", "*string", "name", "name", "name"⟩,
    ⟨"SBCComponentRealm", "CurrentActiveSessionsInbound", "*int",
      "current_active_sessions_inbound", "current_active_sessions_inbound",
      "current_active_sessions_inbound"⟩,
    ⟨"SBCComponentRealm", "CurrentSessionRateInbound", "*int",
      "current_session_rate_inbound", "current_session_rate_inbound",
      "current_session_rate_inbound"⟩,
    ⟨"SBCComponentRealm", "CurrentActiveSessionsOutbound", "*int",
      "current_active_sessions_outbound", "current_active_sessions_outbound",
      "current_active_sessions_outbound"⟩,
    ⟨"SBCComponentRealm", "CurrentSessionRateOutbound", "*int",
      "current_session_rate_outbound", "current_session_rate_outbound",
      "current_session_rate_outbound"⟩,
    ⟨"SBCComponentRealm", "PeriodASR", "*int", "period_asr", "period_asr", "period_asr"⟩,
    ⟨"SBCComponentRealm", "ActiveLocalContacts", "*int",
      "active_local_contacts", "active_local_contacts", "active_local_contacts"⟩,
    ⟨"SBCComponentRealm", "Status", "*int", "status", "status", "status"⟩]

/-- The fields of the hardware health component and of its entries. -/
def hardwareHealthFields : List StructField :=
  [⟨"HardwareHealthComponent", "EnvironmentMonitorState", "*HardwareHealthComponentState",
      "environment_monitor_state", "environment_monitor_state", "environment_monitor_state"⟩,
    ⟨"HardwareHealthComponent", "Fans", "[]HardwareHealthComponentFan", "fans", "fans", "fans"⟩,
    ⟨"HardwareHealthComponent", "PowerSupply", "[]HardwareHealthComponentPowerSupply",
      "power_supply", "power_supply", "power_supply"⟩,
    ⟨"HardwareHealthComponent", "Temperature", "[]HardwareHealthComponentTemperature",
      "temperature", "temperature", "temperature"⟩,
    ⟨"HardwareHealthComponent", "Voltage", "[]HardwareHealthComponentVoltage",
      "voltage", "voltage", "voltage"⟩,
    ⟨"HardwareHealthComponentFan", "Description", "*string",
      "description", "description", "description"⟩,
    ⟨"HardwareHealthComponentFan", "State", "*HardwareHealthComponentState",
      "state", "state", "state"⟩,
    ⟨"HardwareHealthComponentTemperature", "Description", "*string",
      "description", "description", "description"⟩,
    ⟨"HardwareHealthComponentTemperature", "Temperature", "*float64",
      "temperature", "temperature", "temperature"⟩,
    ⟨"HardwareHealthComponentTemperature", "State", "*HardwareHealthComponentState",
      "state", "state", "state"⟩,
    ⟨"HardwareHealthComponentVoltage", "Description", "*string",
      "description", "description", "description"⟩,
    ⟨"HardwareHealthComponentVoltage", "Voltage", "*float64", "voltage", "voltage", "voltage"⟩,
    ⟨"HardwareHealthComponentVoltage", "State", "*HardwareHealthComponentState",
      "state", "state", "state"⟩,
    ⟨"HardwareHealthComponentPowerSupply", "Description", "*string",
      "description", "description", "description"⟩,
    ⟨"HardwareHealthComponentPowerSupply", "State", "*HardwareHealthComponentState",
      "state", "state", "state"⟩]

/-- The fields of `Rate`. -/
def rateFields : List StructField :=
  [⟨"Rate", "Time", "string", "time", "time", "time"⟩,
    ⟨"Rate", "Value", "float64", "value", "value", "value"⟩]

/-- Every field of every struct declared in `device.go`. -/
def structFields : List StructField :=
  devicePropertiesFields ++ interfaceFields ++ technologyFields ++ componentFields ++
    hardwareHealthFields ++ rateFields

/-- The comma-separated parts of a tag value (`strings.Split(tag, ",")`). -/
def splitOnComma : List Char → List (List Char)
  | [] => [[]]
  | ch :: rest =>
    if ch = ',' then [] :: splitOnComma rest
    else
      match splitOnComma rest with
      | [] => [[ch]]
      | part :: parts => (ch :: part) :: parts

/-- The key of a tag value: what stands before the first comma. The key "-" excludes
the field from the serialized form. -/
def tagName (tag : String) : String :=
  String.mk ((splitOnComma tag.toList).headD [])

/-- The tag value has the option `omitempty` after its key. -/
def tagOmitEmpty (tag : String) : Bool :=
  (splitOnComma tag.toList).tail.contains "omitempty".toList

/-- The field is never in the serialized form when it is absent: it is excluded, or its
tag has `omitempty`. -/
def omittedWhenAbsent (tag : String) : Bool :=
  tagName tag == "-" || tagOmitEmpty tag

/-- The Go type of the field is a pointer or a slice: the field can be absent. -/
def StructField.optional (f : StructField) : Bool :=
  match f.typ.toList with
  | '*' :: _ => true
  | '[' :: ']' :: _ => true
  | _ => false

/-- The structs of the technology blocks of an interface, and of their parts. -/
def technologyStructs : List String :=
  ["EthernetLikeInterface", "RadioInterface", "DWDMInterface", "OpticalTransponderInterface",
    "OpticalAmplifierInterface", "OpticalOPMInterface", "OpticalChannel", "SAPInterface",
    "VLANInformation", "VLAN"]

/-- The fields of `Interface` that hold a technology block. -/
def technologySlots : List String :=
  ["EthernetLike", "Radio", "DWDM", "OpticalTransponder", "OpticalAmplifier", "OpticalOPM",
    "SAP", "VLAN"]

/-! ## Serialization of an interface by its struct tags -/

/-- The serialized forms. -/
inductive Encoding where
  | yaml
  | json
  | xml
  deriving DecidableEq, Repr

/-- The tag value of the field that an encoding reads. -/
def StructField.tag (f : StructField) : Encoding → String
  | .yaml => f.yaml
  | .json => f.json
  | .xml => f.xml

/-- The value of a field in serialized form: `null`, or the value of a present field as
it is handed to the value encoder of the library, a number, a string or a technology
block. The text that the library writes for a present value is not modelled (the
escaping of characters, the format of floating point numbers, the fields of a block
under their own tags), and neither is its refusal of a value: the theorems use this type
to tell `null` from a present value and say nothing of present values coming back
equal. -/
inductive Wire where
  | null
  | uint (v : Nat)
  | str (v : String)
  | ethernetLike (v : EthernetLikeInterface)
  | radio (v : RadioInterface)
  | dwdm (v : DWDMInterface)
  | opticalTransponder (v : OpticalTransponderInterface)
  | opticalAmplifier (v : OpticalAmplifierInterface)
  | opticalOPM (v : OpticalOPMInterface)
  | sap (v : SAPInterface)
  | vlan (v : VLANInformation)
  deriving DecidableEq, Repr

/-- The serialized value of a pointer field: `null` for `nil`. -/
def Wire.ofOption {α : Type} (f : α → Wire) : Option α → Wire
  | none => .null
  | some a => f a

/-- Reading a serialized value into a field of type `*uint64`. -/
def Wire.uint? : Wire → Option Nat
  | .uint v => some v
  | _ => none

/-- Reading a serialized value into a field of type `*string`. -/
def Wire.str? : Wire → Option String
  | .str v => some v
  | _ => none

/-- Reading a serialized value into a field of type `*EthernetLikeInterface`. -/
def Wire.ethernetLike? : Wire → Option EthernetLikeInterface
  | .ethernetLike v => some v
  | _ => none

/-- Reading a serialized value into a field of type `*RadioInterface`. -/
def Wire.radio? : Wire → Option RadioInterface
  | .radio v => some v
  | _ => none

/-- Reading a serialized value into a field of type `*DWDMInterface`. -/
def Wire.dwdm? : Wire → Option DWDMInterface
  | .dwdm v => some v
  | _ => none

/-- Reading a serialized value into a field of type `*OpticalTransponderInterface`. -/
def Wire.opticalTransponder? : Wire → Option OpticalTransponderInterface
  | .opticalTransponder v => some v
  | _ => none

/-- Reading a serialized value into a field of type `*OpticalAmplifierInterface`. -/
def Wire.opticalAmplifier? : Wire → Option OpticalAmplifierInterface
  | .opticalAmplifier v => some v
  | _ => none

/-- Reading a serialized value into a field of type `*OpticalOPMInterface`. -/
def Wire.opticalOPM? : Wire → Option OpticalOPMInterface
  | .opticalOPM v => some v
  | _ => none

/-- Reading a serialized value into a field of type `*SAPInterface`. -/
def Wire.sap? : Wire → Option SAPInterface
  | .sap v => some v
  | _ => none

/-- Reading a serialized value into a field of type `*VLANInformation`. -/
def Wire.vlan? : Wire → Option VLANInformation
  | .vlan v => some v
  | _ => none

/-- A serialized record: keys with their values, in the order of the fields. -/
abbrev Doc := List (String × Wire)

/-- The value under a key of a serialized record. -/
def lookupKey (key : String) : Doc → Option Wire
  | [] => none
  | (k, w) :: doc => if k = key then some w else lookupKey key doc

/-- What the encoders of Go write for one field. A field with the key "-" is not
written. A `nil` field is not written when its tag has `omitempty`; `encoding/xml` does
not write a `nil` pointer in any case; `encoding/json` and the YAML encoder write it as
`null`. Every other value is written under the key of the tag. -/
def emit (enc : Encoding) (tag : String) (w : Wire) : Doc :=
  if tagName tag = "-" then []
  else if w = .null ∧ (tagOmitEmpty tag = true ∨ enc = .xml) then []
  else [(tagName tag, w)]

/-- Serialization of the values of the fields of a record under the tags of the fields. -/
def encode (enc : Encoding) : List String → List Wire → Doc
  | tag :: tags, w :: ws => emit enc tag w ++ encode enc tags ws
  | _, _ => []

/-- What the decoders of Go read for one field: nothing for a field with the key "-",
else the value under the key of the tag, `null` when the key is missing. -/
def readTag (tag : String) (doc : Doc) : Wire :=
  if tagName tag = "-" then .null else (lookupKey (tagName tag) doc).getD .null

/-- Deserialization: the values of the fields of a record, read under their tags. -/
def decode (tags : List String) (doc : Doc) : List Wire :=
  tags.map (fun tag => readTag tag doc)

/-- The values of the fields of an interface, in the order of the source. -/
def Interface.values (i : Interface) : List Wire :=
  [Wire.ofOption .uint i.IfIndex, Wire.ofOption .str i.IfDescr, Wire.ofOption .str i.IfType,
    Wire.ofOption .uint i.IfMtu, Wire.ofOption .uint i.IfSpeed,
    Wire.ofOption .str i.IfPhysAddress, Wire.ofOption .str i.IfAdminStatus,
    Wire.ofOption .str i.IfOperStatus, Wire.ofOption .uint i.IfLastChange,
    Wire.ofOption .uint i.IfInOctets, Wire.ofOption .uint i.IfInUcastPkts,
    Wire.ofOption .uint i.IfInNUcastPkts, Wire.ofOption .uint i.IfInDiscards,
    Wire.ofOption .uint i.IfInErrors, Wire.ofOption .uint i.IfInUnknownProtos,
    Wire.ofOption .uint i.IfOutOctets, Wire.ofOption .uint i.IfOutUcastPkts,
    Wire.ofOption .uint i.IfOutNUcastPkts, Wire.ofOption .uint i.IfOutDiscards,
    Wire.ofOption .uint i.IfOutErrors, Wire.ofOption .uint i.IfOutQLen,
    Wire.ofOption .str i.IfSpecific, Wire.ofOption .str i.IfName,
    Wire.ofOption .uint i.IfInMulticastPkts, Wire.ofOption .uint i.IfInBroadcastPkts,
    Wire.ofOption .uint i.IfOutMulticastPkts, Wire.ofOption .uint i.IfOutBroadcastPkts,
    Wire.ofOption .uint i.IfHCInOctets, Wire.ofOption .uint i.IfHCInUcastPkts,
    Wire.ofOption .uint i.IfHCInMulticastPkts, Wire.ofOption .uint i.IfHCInBroadcastPkts,
    Wire.ofOption .uint i.IfHCOutOctets, Wire.ofOption .uint i.IfHCOutUcastPkts,
    Wire.ofOption .uint i.IfHCOutMulticastPkts, Wire.ofOption .uint i.IfHCOutBroadcastPkts,
    Wire.ofOption .uint i.IfHighSpeed, Wire.ofOption .str i.IfAlias,
    Wire.ofOption .uint i.MaxSpeedIn, Wire.ofOption .uint i.MaxSpeedOut,
    Wire.ofOption .str i.SubType, Wire.ofOption .ethernetLike i.EthernetLike,
    Wire.ofOption .radio i.Radio, Wire.ofOption .dwdm i.DWDM,
    Wire.ofOption .opticalTransponder i.OpticalTransponder,
    Wire.ofOption .opticalAmplifier i.OpticalAmplifier, Wire.ofOption .opticalOPM i.OpticalOPM,
    Wire.ofOption .sap i.SAP, Wire.ofOption .vlan i.VLAN]

/-- The interface whose fields have the given values, in the order of the source; a
value of another type than the field leaves the field `nil`. -/
def Interface.ofValues (ws : List Wire) : Interface where
  IfIndex := (ws.getD 0 .null).uint?
  IfDescr := (ws.getD 1 .null).str?
  IfType := (ws.getD 2 .null).str?
  IfMtu := (ws.getD 3 .null).uint?
  IfSpeed := (ws.getD 4 .null).uint?
  IfPhysAddress := (ws.getD 5 .null).str?
  IfAdminStatus := (ws.getD 6 .null).str?
  IfOperStatus := (ws.getD 7 .null).str?
  IfLastChange := (ws.getD 8 .null).uint?
  IfInOctets := (ws.getD 9 .null).uint?
  IfInUcastPkts := (ws.getD 10 .null).uint?
  IfInNUcastPkts := (ws.getD 11 .null).uint?
  IfInDiscards := (ws.getD 12 .null).uint?
  IfInErrors := (ws.getD 13 .null).uint?
  IfInUnknownProtos := (ws.getD 14 .null).uint?
  IfOutOctets := (ws.getD 15 .null).uint?
  IfOutUcastPkts := (ws.getD 16 .null).uint?
  IfOutNUcastPkts := (ws.getD 17 .null).uint?
  IfOutDiscards := (ws.getD 18 .null).uint?
  IfOutErrors := (ws.getD 19 .null).uint?
  IfOutQLen := (ws.getD 20 .null).uint?
  IfSpecific := (ws.getD 21 .null).str?
  IfName := (ws.getD 22 .null).str?
  IfInMulticastPkts := (ws.getD 23 .null).uint?
  IfInBroadcastPkts := (ws.getD 24 .null).uint?
  IfOutMulticastPkts := (ws.getD 25 .null).uint?
  IfOutBroadcastPkts := (ws.getD 26 .null).uint?
  IfHCInOctets := (ws.getD 27 .null).uint?
  IfHCInUcastPkts := (ws.getD 28 .null).uint?
  IfHCInMulticastPkts := (ws.getD 29 .null).uint?
  IfHCInBroadcastPkts := (ws.getD 30 .null).uint?
  IfHCOutOctets := (ws.getD 31 .null).uint?
  IfHCOutUcastPkts := (ws.getD 32 .null).uint?
  IfHCOutMulticastPkts := (ws.getD 33 .null).uint?
  IfHCOutBroadcastPkts := (ws.getD 34 .null).uint?
  IfHighSpeed := (ws.getD 35 .null).uint?
  IfAlias := (ws.getD 36 .null).str?
  MaxSpeedIn := (ws.getD 37 .null).uint?
  MaxSpeedOut := (ws.getD 38 .null).uint?
  SubType := (ws.getD 39 .null).str?
  EthernetLike := (ws.getD 40 .null).ethernetLike?
  Radio := (ws.getD 41 .null).radio?
  DWDM := (ws.getD 42 .null).dwdm?
  OpticalTransponder := (ws.getD 43 .null).opticalTransponder?
  OpticalAmplifier := (ws.getD 44 .null).opticalAmplifier?
  OpticalOPM := (ws.getD 45 .null).opticalOPM?
  SAP := (ws.getD 46 .null).sap?
  VLAN := (ws.getD 47 .null).vlan?

/-- The serialized form of an interface under the tags of `Interface`. -/
def Interface.serialize (enc : Encoding) (i : Interface) : Doc :=
  encode enc (interfaceFields.map (fun f => f.tag enc)) i.values

/-- The interface read from a serialized form under the tags of `Interface`. -/
def Interface.deserialize (enc : Encoding) (doc : Doc) : Interface :=
  Interface.ofValues (decode (interfaceFields.map (fun f => f.tag enc)) doc)

/-- An interface with an internal port type. -/
def radio01WithSubType : Interface :=
  { IfName := some "Radio0/1", IfSpeed := some 100, SubType := some "radio" }

/-! ## `core/request/check_cpu_load.go` -/

/-- CheckCPULoadRequest is the request struct for the check cpu load request: the
embedded `CheckDeviceRequest` and the thresholds. The types of the two fields are
declared outside the files embedded here. -/
structure CheckCPULoadRequest (DeviceRequest Thresholds : Type) where
  CheckDeviceRequest : DeviceRequest
  CPULoadThresholds : Thresholds

/-- The two `validate` methods that `CheckCPULoadRequest.validate` calls, declared
outside the files embedded here: of `CheckThresholds`, and of `CheckDeviceRequest`, which
takes the context. A `nil` error is `none`. -/
structure Validators (Ctx DeviceRequest Thresholds : Type) where
  thresholdsValidate : Thresholds → Option Error
  deviceRequestValidate : DeviceRequest → Ctx → Option Error

/-- The method `CheckCPULoadRequest.validate`. -/
def CheckCPULoadRequest.validate {Ctx DeviceRequest Thresholds : Type}
    (v : Validators Ctx DeviceRequest Thresholds)
    (r : CheckCPULoadRequest DeviceRequest Thresholds) (ctx : Ctx) : Option Error :=
  match v.thresholdsValidate r.CPULoadThresholds with
  | some err => some err
  | none => v.deviceRequestValidate r.CheckDeviceRequest ctx

/-- The method `CheckCPULoadRequest.validate` once more, with the calls it makes: the
second component lists the `validate` methods called, in the order of the calls. -/
def CheckCPULoadRequest.validateTraced {Ctx DeviceRequest Thresholds : Type}
    (v : Validators Ctx DeviceRequest Thresholds)
    (r : CheckCPULoadRequest DeviceRequest Thresholds) (ctx : Ctx) :
    Option Error × List String :=
  match v.thresholdsValidate r.CPULoadThresholds with
  | some err => (some err, ["CPULoadThresholds.validate"])
  | none =>
    (v.deviceRequestValidate r.CheckDeviceRequest ctx,
      ["CPULoadThresholds.validate", "CheckDeviceRequest.validate"])

/-! ## Theorems: the enumerations -/

/-- C1: for each of the seven defined Status values, `ToStatusCode` succeeds with a code
and `GetStatus` of that code succeeds and gives the value back. -/
theorem status_decode_encode (v : Status) (hv : v ∈ allStatus) :
    ∃ c : Int, ToStatusCode v = ⟨c, none⟩ ∧ GetStatus c = ⟨v, none⟩ := by
  simp only [allStatus, List.mem_cons, List.mem_singleton, List.not_mem_nil, or_false] at hv
  rcases hv with rfl | rfl | rfl | rfl | rfl | rfl | rfl
  · exact ⟨1, by decide, by decide⟩
  · exact ⟨2, by decide, by decide⟩
  · exact ⟨3, by decide, by decide⟩
  · exact ⟨4, by decide, by decide⟩
  · exact ⟨5, by decide, by decide⟩
  · exact ⟨6, by decide, by decide⟩
  · exact ⟨7, by decide, by decide⟩

theorem status_decode_encode_witness :
    StatusLowerLayerDown ∈ allStatus ∧
      ∃ c : Int, ToStatusCode StatusLowerLayerDown = ⟨c, none⟩ ∧
        GetStatus c = ⟨StatusLowerLayerDown, none⟩ :=
  ⟨by decide, status_decode_encode StatusLowerLayerDown (by decide)⟩

/-- C2: `GetStatus` returns an error exactly for the codes outside 1..7, so for 0 and
for 8, and the value returned next to the error is none of the seven labels. -/
theorem getStatus_error_iff (code : Int) :
    ((GetStatus code).err ≠ none ↔ ¬ (1 ≤ code ∧ code ≤ 7)) ∧
      (GetStatus 0).err ≠ none ∧ (GetStatus 8).err ≠ none ∧
      ((GetStatus code).err ≠ none → (GetStatus code).val ∉ allStatus) := by
  refine ⟨?_, by decide, by decide, ?_⟩
  · unfold GetStatus
    split_ifs <;> simp <;> omega
  · unfold GetStatus
    split_ifs <;> simp
    decide

/-- C3: for every code in 1..7 `GetStatus` succeeds with one of the seven labels and
`ToStatusCode` of that label succeeds with the code; `GetStatus` is injective on 1..7 and
the seven labels are pairwise distinct. -/
theorem status_bijective_with_codes (c d : Int) (hc : 1 ≤ c ∧ c ≤ 7) (hd : 1 ≤ d ∧ d ≤ 7) :
    (∃ s : Status, s ∈ allStatus ∧ GetStatus c = ⟨s, none⟩ ∧ ToStatusCode s = ⟨c, none⟩) ∧
      ((GetStatus c).val = (GetStatus d).val → c = d) ∧
      allStatus.Nodup ∧ allStatus.length = 7 := by
  obtain ⟨hc1, hc7⟩ := hc
  obtain ⟨hd1, hd7⟩ := hd
  refine ⟨?_, ?_, by decide, by decide⟩
  · interval_cases c
    · exact ⟨StatusUp, by decide, by decide, by decide⟩
    · exact ⟨StatusDown, by decide, by decide, by decide⟩
    · exact ⟨StatusTesting, by decide, by decide, by decide⟩
    · exact ⟨StatusUnknown, by decide, by decide, by decide⟩
    · exact ⟨StatusDormant, by decide, by decide, by decide⟩
    · exact ⟨StatusNotPresent, by decide, by decide, by decide⟩
    · exact ⟨StatusLowerLayerDown, by decide, by decide, by decide⟩
  · interval_cases c <;> interval_cases d <;> decide

theorem status_bijective_with_codes_witness :
    (∃ s : Status, s ∈ allStatus ∧ GetStatus 3 = ⟨s, none⟩ ∧ ToStatusCode s = ⟨3, none⟩) ∧
      ((GetStatus 3).val = (GetStatus 6).val → (3 : Int) = 6) ∧
      allStatus.Nodup ∧ allStatus.length = 7 :=
  status_bijective_with_codes 3 6 (by decide) (by decide)

/-- C4: `ToStatusCode` returns an error exactly for the receivers that are none of the
seven labels, such as the empty string and "Up"; on success the code is in 1..7; on
error the integer returned with it is 0, a code that `GetStatus` rejects. -/
theorem toStatusCode_error_iff (s : Status) :
    ((ToStatusCode s).err ≠ none ↔ s ∉ allStatus) ∧
      ((ToStatusCode s).err = none → 1 ≤ (ToStatusCode s).val ∧ (ToStatusCode s).val ≤ 7) ∧
      ((ToStatusCode s).err ≠ none →
        (ToStatusCode s).val = 0 ∧ (GetStatus (ToStatusCode s).val).err ≠ none) ∧
      (ToStatusCode "").err ≠ none ∧ (ToStatusCode "Up").err ≠ none := by
  refine ⟨?_, ?_, ?_, by decide, by decide⟩
  · unfold ToStatusCode allStatus
    split_ifs <;> simp_all
  · unfold ToStatusCode
    split_ifs <;> simp
  · unfold ToStatusCode
    split_ifs <;> simp
    decide

/-- C5: `GetInt` maps initial, normal, warning, critical, shutdown, not_present,
not_functioning, unknown to 0..7 in this order without error, different states among the
eight get different ordinals, and every integer in 0..7 is the ordinal of exactly one of
the eight. -/
theorem getInt_bijection (h g : HardwareHealthComponentState) (n : Int)
    (hh : h ∈ allHardwareHealthComponentState) (hg : g ∈ allHardwareHealthComponentState)
    (hn : 0 ≤ n ∧ n ≤ 7) :
    allHardwareHealthComponentState
        = ["initial", "normal", "warning", "critical", "shutdown", "not_present",
            "not_functioning", "unknown"] ∧
      allHardwareHealthComponentState.map GetInt
        = [⟨0, none⟩, ⟨1, none⟩, ⟨2, none⟩, ⟨3, none⟩, ⟨4, none⟩, ⟨5, none⟩, ⟨6, none⟩,
            ⟨7, none⟩] ∧
      ((GetInt h).val = (GetInt g).val → h = g) ∧
      (∃! k : HardwareHealthComponentState,
        k ∈ allHardwareHealthComponentState ∧ GetInt k = ⟨n, none⟩) := by
  obtain ⟨hn0, hn7⟩ := hn
  refine ⟨by decide, by decide, ?_, ?_⟩
  · simp only [allHardwareHealthComponentState, List.mem_cons, List.mem_singleton,
      List.not_mem_nil, or_false] at hh hg
    rcases hh with rfl | rfl | rfl | rfl | rfl | rfl | rfl | rfl <;>
      rcases hg with rfl | rfl | rfl | rfl | rfl | rfl | rfl | rfl <;> decide
  · have key : ∀ k ∈ allHardwareHealthComponentState, ∀ j ∈ allHardwareHealthComponentState,
        (GetInt k).val = (GetInt j).val → k = j := by decide
    have ex : ∃ k, k ∈ allHardwareHealthComponentState ∧ GetInt k = ⟨n, none⟩ := by
      interval_cases n
      · exact ⟨HardwareHealthComponentStateInitial, by decide, by decide⟩
      · exact ⟨HardwareHealthComponentStateNormal, by decide, by decide⟩
      · exact ⟨HardwareHealthComponentStateWarning, by decide, by decide⟩
      · exact ⟨HardwareHealthComponentStateCritical, by decide, by decide⟩
      · exact ⟨HardwareHealthComponentStateShutdown, by decide, by decide⟩
      · exact ⟨HardwareHealthComponentStateNotPresent, by decide, by decide⟩
      · exact ⟨HardwareHealthComponentStateNotFunctioning, by decide, by decide⟩
      · exact ⟨HardwareHealthComponentStateUnknown, by decide, by decide⟩
    obtain ⟨k, hk, hkn⟩ := ex
    refine ⟨k, ⟨hk, hkn⟩, ?_⟩
    rintro j ⟨hj, hjn⟩
    exact key j hj k hk (by rw [hjn, hkn])

theorem getInt_bijection_witness :
    allHardwareHealthComponentState
        = ["initial", "normal", "warning", "critical", "shutdown", "not_present",
            "not_functioning", "unknown"] ∧
      allHardwareHealthComponentState.map GetInt
        = [⟨0, none⟩, ⟨1, none⟩, ⟨2, none⟩, ⟨3, none⟩, ⟨4, none⟩, ⟨5, none⟩, ⟨6, none⟩,
            ⟨7, none⟩] ∧
      ((GetInt "warning").val = (GetInt "shutdown").val → "warning" = "shutdown") ∧
      (∃! k : HardwareHealthComponentState,
        k ∈ allHardwareHealthComponentState ∧ GetInt k = ⟨5, none⟩) :=
  getInt_bijection "warning" "shutdown" 5 (by decide) (by decide) (by decide)

/-- C6: `GetInt` returns an error exactly for the states that are none of the eight
labels. For such a state the error is always returned, and the integer returned with it
is 7, the ordinal of "unknown": the result as a whole differs from the result for
"unknown", and only a caller that takes the integer of the pair gets the fallback. -/
theorem getInt_error_iff (h : HardwareHealthComponentState) :
    ((GetInt h).err ≠ none ↔ h ∉ allHardwareHealthComponentState) ∧
      (h ∉ allHardwareHealthComponentState →
        GetInt h = ⟨7, some (Error.new ("invalid hardware health state '" ++ h ++ "'"))⟩ ∧
        (GetInt h).val = (GetInt HardwareHealthComponentStateUnknown).val ∧
        GetInt h ≠ GetInt HardwareHealthComponentStateUnknown) ∧
      (GetInt "").err ≠ none ∧ (GetInt "Normal").err ≠ none := by
  refine ⟨?_, ?_, by decide, by decide⟩
  · unfold GetInt allHardwareHealthComponentState
    split_ifs <;> simp_all
  · intro hh
    simp only [allHardwareHealthComponentState, List.mem_cons, List.mem_singleton,
      List.not_mem_nil, or_false, not_or] at hh
    obtain ⟨h0, h1, h2, h3, h4, h5, h6, h7⟩ := hh
    have e : GetInt h
        = ⟨7, some (Error.new ("invalid hardware health state '" ++ h ++ "'"))⟩ := by
      simp [GetInt, h0, h1, h2, h3, h4, h5, h6, h7]
    have u : GetInt HardwareHealthComponentStateUnknown = ⟨7, none⟩ := by decide
    refine ⟨e, ?_, ?_⟩
    · rw [e, u]
    · rw [e, u]
      simp

/-! ## Lemmas on the loops of `GetInterfaces` -/

theorem walkLoop_ofUInt64 (getMsg parseMsg : String) (term : Nat → Nat) (vs : List Nat) :
    ∀ total : Nat, total < 2 ^ 64 →
      walkLoop getMsg parseMsg term (vs.map SNMPResponse.ofUInt64) total
        = .ok ((total + (vs.map term).sum) % 2 ^ 64) := by
  induction vs with
  | nil =>
    intro total ht
    simp only [List.map_nil, walkLoop, List.sum_nil, Nat.add_zero]
    rw [Nat.mod_eq_of_lt ht]
  | cons v vs ih =>
    intro total _
    have hlt : (total + term v) % 2 ^ 64 < 2 ^ 64 := Nat.mod_lt _ (by norm_num)
    simp only [List.map_cons, walkLoop, SNMPResponse.ofUInt64, List.sum_cons]
    rw [ih _ hlt]
    congr 1
    omega

theorem sum_scaled_mod (vs : List Nat) :
    (vs.map (fun bitRate => bitRate * 1000 % 2 ^ 64)).sum % 2 ^ 64
      = 1000 * vs.sum % 2 ^ 64 := by
  induction vs with
  | nil => rfl
  | cons v vs ih =>
    simp only [List.map_cons, List.sum_cons]
    omega

theorem maxCapacityLoop_ofUInt64 (vs : List Nat) :
    maxCapacityLoop (vs.map SNMPResponse.ofUInt64) = .ok (vs.sum % 2 ^ 64) := by
  unfold maxCapacityLoop
  rw [walkLoop_ofUInt64 _ _ _ vs 0 (by norm_num)]
  simp

theorem maxBitRateTxLoop_ofUInt64 (vs : List Nat) :
    maxBitRateTxLoop (vs.map SNMPResponse.ofUInt64) = .ok (1000 * vs.sum % 2 ^ 64) := by
  unfold maxBitRateTxLoop
  rw [walkLoop_ofUInt64 _ _ _ vs 0 (by norm_num), Nat.zero_add, sum_scaled_mod]

theorem maxBitRateRxLoop_ofUInt64 (vs : List Nat) :
    maxBitRateRxLoop (vs.map SNMPResponse.ofUInt64) = .ok (1000 * vs.sum % 2 ^ 64) := by
  unfold maxBitRateRxLoop
  rw [walkLoop_ofUInt64 _ _ _ vs 0 (by norm_num), Nat.zero_add, sum_scaled_mod]

/-- A loop that succeeds has decoded every entry. -/
theorem walkLoop_ok_decodes (getMsg parseMsg : String) (term : Nat → Nat)
    (res : List SNMPResponse) :
    ∀ total result : Nat, walkLoop getMsg parseMsg term res total = .ok result →
      ∃ vs : List Nat, res = vs.map SNMPResponse.ofUInt64 := by
  induction res with
  | nil => intro _ _ _; exact ⟨[], rfl⟩
  | cons r res ih =>
    intro total result h
    obtain ⟨gv⟩ := r
    cases gv with
    | error e => simp [walkLoop] at h
    | ok val =>
      obtain ⟨u⟩ := val
      cases u with
      | error e => simp [walkLoop] at h
      | ok n =>
        simp only [walkLoop] at h
        obtain ⟨vs, hvs⟩ := ih _ _ h
        exact ⟨n :: vs, by simp [hvs, SNMPResponse.ofUInt64]⟩

/-- The outcome of a successful invocation: the baseline slice, merged in place with the
three totals, is returned. -/
theorem GetInterfaces_of_succeeds {Ctx Filter : Type} {net : network Ctx}
    {c : aviatCommunicator Ctx Filter} {ctx : Ctx} {filter : List Filter}
    {baseline : List Interface} {cap tx rx : List Nat}
    (h : Succeeds net c ctx filter baseline cap tx rx) :
    aviatCommunicator.GetInterfaces net c ctx filter
      = ⟨.ok (mergeLoop (cap.sum % 2 ^ 64) (1000 * tx.sum % 2 ^ 64) (1000 * rx.sum % 2 ^ 64)
            baseline),
          some (mergeLoop (cap.sum % 2 ^ 64) (1000 * tx.sum % 2 ^ 64)
            (1000 * rx.sum % 2 ^ 64) baseline)⟩ := by
  obtain ⟨hb, hok, snmp, hsnmp, h1, h2, h3⟩ := h
  unfold aviatCommunicator.GetInterfaces
  rw [hb]
  rcases hpair : net.DeviceConnectionFromContext ctx with ⟨con, ok⟩
  rw [hpair] at hok hsnmp
  simp only at hok hsnmp
  subst hok
  simp only [hsnmp, h1, h2, h3, maxCapacityLoop_ofUInt64, maxBitRateTxLoop_ofUInt64,
    maxBitRateRxLoop_ofUInt64]

/-- Every invocation that returns a list is a successful invocation in the sense of
`Succeeds`. -/
theorem succeeds_of_ret_ok {Ctx Filter : Type} {net : network Ctx}
    {c : aviatCommunicator Ctx Filter} {ctx : Ctx} {filter : List Filter}
    {result : List Interface}
    (h : (aviatCommunicator.GetInterfaces net c ctx filter).ret = .ok result) :
    ∃ baseline cap tx rx, Succeeds net c ctx filter baseline cap tx rx := by
  unfold aviatCommunicator.GetInterfaces at h
  rcases hb : c.codeCommunicator.deviceClass.GetInterfaces ctx filter with e | baseline
  · simp [hb] at h
  rcases hpair : net.DeviceConnectionFromContext ctx with ⟨con, ok⟩
  rw [hb, hpair] at h
  cases ok with
  | false => simp at h
  | true =>
    rcases hs : con.SNMP with _ | snmp
    · simp [hs] at h
    rcases h1 : snmp.SnmpClient.SNMPWalk ctx "1.3.6.1.4.1.2509.9.3.2.4.1.1" with e | res1
    · simp [hs, h1] at h
    rcases l1 : maxCapacityLoop res1 with e | t1
    · simp [hs, h1, l1] at h
    rcases h2 : snmp.SnmpClient.SNMPWalk ctx "1.3.6.1.4.1.2509.9.3.2.1.1.11" with e | res2
    · simp [hs, h1, l1, h2] at h
    rcases l2 : maxBitRateTxLoop res2 with e | t2
    · simp [hs, h1, l1, h2, l2] at h
    rcases h3 : snmp.SnmpClient.SNMPWalk ctx "1.3.6.1.4.1.2509.9.3.2.1.1.12" with e | res3
    · simp [hs, h1, l1, h2, l2, h3] at h
    rcases l3 : maxBitRateRxLoop res3 with e | t3
    · simp [hs, h1, l1, h2, l2, h3, l3] at h
    obtain ⟨cap, rfl⟩ := walkLoop_ok_decodes _ _ _ res1 _ _ l1
    obtain ⟨tx, rfl⟩ := walkLoop_ok_decodes _ _ _ res2 _ _ l2
    obtain ⟨rx, rfl⟩ := walkLoop_ok_decodes _ _ _ res3 _ _ l3
    exact ⟨baseline, cap, tx, rx, hb, by rw [hpair], snmp, by rw [hpair]; exact hs, h1, h2, h3⟩

/-! ## Lemmas on the merge loop -/

theorem enrich_of_isRadio (a t r : Nat) (b : Interface) (h : isRadio b = true) :
    enrich a t r b
      = { b with
          MaxSpeedIn := some a
          MaxSpeedOut := some a
          Radio := some { MaxbitrateOut := some t, MaxbitrateIn := some r } } := by
  simp [enrich, h]

theorem enrich_of_not_isRadio (a t r : Nat) (b : Interface) (h : isRadio b = false) :
    enrich a t r b = b := by
  simp [enrich, h]

theorem hasEnrichmentFields_enrich (a t r : Nat) (b : Interface) :
    hasEnrichmentFields (enrich a t r b) = (isRadio b || hasEnrichmentFields b) := by
  cases h : isRadio b
  · rw [enrich_of_not_isRadio _ _ _ _ h]; simp
  · rw [enrich_of_isRadio _ _ _ _ h]; simp [hasEnrichmentFields]

theorem mergeLoop_length (a t r : Nat) (l : List Interface) :
    (mergeLoop a t r l).length = l.length := by
  simp [mergeLoop]

theorem mergeLoop_getElem? (a t r : Nat) (l : List Interface) (i : Nat) :
    (mergeLoop a t r l)[i]? = (l[i]?).map (enrich a t r) := by
  simp [mergeLoop]

theorem mergeLoop_count (a t r : Nat) (l : List Interface) :
    ((mergeLoop a t r l).filter hasEnrichmentFields).length
      = (l.filter isRadio).length
        + (l.filter (fun b => !isRadio b && hasEnrichmentFields b)).length := by
  induction l with
  | nil => rfl
  | cons b l ih =>
    have ih2 : (List.filter hasEnrichmentFields (List.map (enrich a t r) l)).length
        = (l.filter isRadio).length
          + (l.filter (fun b => !isRadio b && hasEnrichmentFields b)).length := ih
    simp only [mergeLoop, List.map_cons, List.filter_cons, hasEnrichmentFields_enrich]
    cases h1 : isRadio b <;> cases h2 : hasEnrichmentFields b <;> simp [ih2] <;> omega

/-! ## Theorems: `aviatCommunicator.GetInterfaces` -/

/-- C7, counterexample: a successful invocation on a baseline of two entries of which one
matches the predicate, and whose unmatched entry already carried the four enrichment
fields: the result has two entries with the enrichment fields set, not one. -/
theorem merge_exactly_M_counterexample :
    Succeeds (boundNetwork (walkOf [500]) (walkOf [10]) (walkOf [20]))
        (fixedCommunicator (.ok [radio01, ethWithRadioFields])) () ([] : List Unit)
        [radio01, ethWithRadioFields] [500] [10] [20] ∧
      ([radio01, ethWithRadioFields].filter isRadio).length = 1 ∧
      ∃ result,
        (aviatCommunicator.GetInterfaces (boundNetwork (walkOf [500]) (walkOf [10]) (walkOf [20]))
          (fixedCommunicator (.ok [radio01, ethWithRadioFields])) () ([] : List Unit)).ret
            = .ok result ∧
        (result.filter hasEnrichmentFields).length = 2 :=
  ⟨⟨rfl, rfl, ⟨fixedClient (walkOf [500]) (walkOf [10]) (walkOf [20])⟩, rfl, rfl, rfl, rfl⟩,
    by decide, _, rfl, by decide⟩

/-- C7, amended: in a successful invocation on a baseline of N entries of which M match the
predicate, the result has N entries, each matched entry has the four enrichment fields
set, each other entry is unchanged in every field, and the number of result entries with
the four fields set is M plus the number of unmatched baseline entries that already had
them: exactly M when no unmatched baseline entry had them. -/
theorem merge_sets_fields_on_matched {Ctx Filter : Type} (net : network Ctx)
    (c : aviatCommunicator Ctx Filter) (ctx : Ctx) (filter : List Filter)
    (baseline : List Interface) (cap tx rx : List Nat)
    (h : Succeeds net c ctx filter baseline cap tx rx) :
    ∃ result : List Interface, (aviatCommunicator.GetInterfaces net c ctx filter).ret = .ok result ∧
      result.length = baseline.length ∧
      (∀ (i : Nat) (b : Interface), baseline[i]? = some b → ∃ r, result[i]? = some r ∧
        (isRadio b = true → hasEnrichmentFields r = true) ∧ (isRadio b = false → r = b)) ∧
      (result.filter hasEnrichmentFields).length
        = (baseline.filter isRadio).length
          + (baseline.filter (fun b => !isRadio b && hasEnrichmentFields b)).length ∧
      ((∀ b ∈ baseline, isRadio b = false → hasEnrichmentFields b = false) →
        (result.filter hasEnrichmentFields).length = (baseline.filter isRadio).length) := by
  refine ⟨_, by rw [GetInterfaces_of_succeeds h], mergeLoop_length _ _ _ _, ?_,
    mergeLoop_count _ _ _ _, ?_⟩
  · intro i b hb
    refine ⟨enrich _ _ _ b, by rw [mergeLoop_getElem?, hb]; rfl, ?_, ?_⟩
    · intro hr
      rw [hasEnrichmentFields_enrich, hr]
      rfl
    · intro hr
      exact enrich_of_not_isRadio _ _ _ _ hr
  · intro hno
    rw [mergeLoop_count]
    have : baseline.filter (fun b => !isRadio b && hasEnrichmentFields b) = [] := by
      rw [List.filter_eq_nil_iff]
      intro b hb
      cases hr : isRadio b
      · simp [hno b hb hr]
      · simp
    rw [this]
    rfl

theorem merge_sets_fields_on_matched_witness :
    ∃ result : List Interface,
      (aviatCommunicator.GetInterfaces (boundNetwork (walkOf [500]) (walkOf [10]) (walkOf [20]))
        (fixedCommunicator (.ok [radio01, ethWithRadioFields])) () ([] : List Unit)).ret
          = .ok result ∧
      result.length = [radio01, ethWithRadioFields].length ∧
      (∀ (i : Nat) (b : Interface), [radio01, ethWithRadioFields][i]? = some b → ∃ r, result[i]? = some r ∧
        (isRadio b = true → hasEnrichmentFields r = true) ∧ (isRadio b = false → r = b)) ∧
      (result.filter hasEnrichmentFields).length
        = ([radio01, ethWithRadioFields].filter isRadio).length
          + ([radio01, ethWithRadioFields].filter
              (fun b => !isRadio b && hasEnrichmentFields b)).length ∧
      ((∀ b ∈ [radio01, ethWithRadioFields], isRadio b = false →
          hasEnrichmentFields b = false) →
        (result.filter hasEnrichmentFields).length
          = ([radio01, ethWithRadioFields].filter isRadio).length) :=
  merge_sets_fields_on_matched (boundNetwork (walkOf [500]) (walkOf [10]) (walkOf [20]))
    (fixedCommunicator (.ok [radio01, ethWithRadioFields])) () [] [radio01, ethWithRadioFields]
    [500] [10] [20]
    ⟨rfl, rfl, ⟨fixedClient (walkOf [500]) (walkOf [10]) (walkOf [20])⟩, rfl, rfl, rfl, rfl⟩

/-- C8, counterexample: two links that each report 2^63 as maximal capacity: the
invocation succeeds and the matched interface gets `MaxSpeedIn = MaxSpeedOut = 0`, not
the sum 2^64 of the two decoded values. -/
theorem maxSpeed_sum_counterexample :
    Succeeds (boundNetwork (walkOf [9223372036854775808, 9223372036854775808]) (walkOf [10])
        (walkOf [20])) (fixedCommunicator (.ok [radio01])) () ([] : List Unit) [radio01]
        [9223372036854775808, 9223372036854775808] [10] [20] ∧
      isRadio radio01 = true ∧
      ∃ r,
        (aviatCommunicator.GetInterfaces
          (boundNetwork (walkOf [9223372036854775808, 9223372036854775808]) (walkOf [10])
            (walkOf [20])) (fixedCommunicator (.ok [radio01])) () ([] : List Unit)).ret
            = .ok [r] ∧
        r.MaxSpeedIn = some 0 ∧ r.MaxSpeedOut = some 0 ∧
        r.MaxSpeedIn ≠ some ([9223372036854775808, 9223372036854775808] : List Nat).sum :=
  ⟨⟨rfl, rfl, ⟨fixedClient (walkOf [9223372036854775808, 9223372036854775808]) (walkOf [10])
      (walkOf [20])⟩, rfl, rfl, rfl, rfl⟩,
    by decide, _, rfl, rfl, rfl, by decide⟩

/-- C8, amended: in a successful invocation every matched interface has `MaxSpeedIn` and
`MaxSpeedOut` present and equal to the sum, modulo 2^64, of the values decoded from the
walk of 1.3.6.1.4.1.2509.9.3.2.4.1.1, with no unit scaling: to the sum itself when it is
below 2^64. The values 1000, 2000, 1500 give 4500 and the single value 500 gives 500. -/
theorem maxSpeed_is_sum_mod {Ctx Filter : Type} (net : network Ctx)
    (c : aviatCommunicator Ctx Filter) (ctx : Ctx) (filter : List Filter)
    (baseline : List Interface) (cap tx rx : List Nat) (i : Nat) (b : Interface)
    (h : Succeeds net c ctx filter baseline cap tx rx)
    (hb : baseline[i]? = some b) (hr : isRadio b = true) :
    (∃ (result : List Interface) (r : Interface), (aviatCommunicator.GetInterfaces net c ctx filter).ret = .ok result ∧
      result[i]? = some r ∧
      r.MaxSpeedIn = some (cap.sum % 2 ^ 64) ∧ r.MaxSpeedOut = some (cap.sum % 2 ^ 64) ∧
      (cap.sum < 2 ^ 64 → r.MaxSpeedIn = some cap.sum ∧ r.MaxSpeedOut = some cap.sum)) ∧
      maxCapacityLoop ([1000, 2000, 1500].map SNMPResponse.ofUInt64) = .ok 4500 ∧
      maxCapacityLoop ([500].map SNMPResponse.ofUInt64) = .ok 500 := by
  refine ⟨⟨_, enrich _ _ _ b, by rw [GetInterfaces_of_succeeds h],
    by rw [mergeLoop_getElem?, hb]; rfl, ?_, ?_, ?_⟩, by rfl, by rfl⟩
  · rw [enrich_of_isRadio _ _ _ _ hr]
  · rw [enrich_of_isRadio _ _ _ _ hr]
  · intro hlt
    rw [enrich_of_isRadio _ _ _ _ hr, Nat.mod_eq_of_lt hlt]
    exact ⟨rfl, rfl⟩

theorem maxSpeed_is_sum_mod_witness :
    (∃ (result : List Interface) (r : Interface),
      (aviatCommunicator.GetInterfaces
        (boundNetwork (walkOf [1000, 2000, 1500]) (walkOf [10]) (walkOf [20]))
        (fixedCommunicator (.ok [ethWithRadioFields, radio01])) () ([] : List Unit)).ret
          = .ok result ∧
      result[1]? = some r ∧
      r.MaxSpeedIn = some (([1000, 2000, 1500] : List Nat).sum % 2 ^ 64) ∧
      r.MaxSpeedOut = some (([1000, 2000, 1500] : List Nat).sum % 2 ^ 64) ∧
      (([1000, 2000, 1500] : List Nat).sum < 2 ^ 64 →
        r.MaxSpeedIn = some ([1000, 2000, 1500] : List Nat).sum ∧
        r.MaxSpeedOut = some ([1000, 2000, 1500] : List Nat).sum)) ∧
      maxCapacityLoop ([1000, 2000, 1500].map SNMPResponse.ofUInt64) = .ok 4500 ∧
      maxCapacityLoop ([500].map SNMPResponse.ofUInt64) = .ok 500 :=
  maxSpeed_is_sum_mod (boundNetwork (walkOf [1000, 2000, 1500]) (walkOf [10]) (walkOf [20]))
    (fixedCommunicator (.ok [ethWithRadioFields, radio01])) () [] [ethWithRadioFields, radio01]
    [1000, 2000, 1500] [10] [20] 1 radio01
    ⟨rfl, rfl, ⟨fixedClient (walkOf [1000, 2000, 1500]) (walkOf [10]) (walkOf [20])⟩, rfl, rfl,
      rfl, rfl⟩
    rfl (by decide)

/-- C9: in a successful invocation whose scaled sums stay below 2^64, every matched
interface has a radio block whose `MaxbitrateOut` is 1000 times the sum of the values of
the transmit walk and whose `MaxbitrateIn` is 1000 times the sum of the values of the
receive walk: the total of the transmit loop goes to the Out field and the total of the
receive loop to the In field, never the other way round. -/
theorem maxbitrate_is_scaled_sum {Ctx Filter : Type} (net : network Ctx)
    (c : aviatCommunicator Ctx Filter) (ctx : Ctx) (filter : List Filter)
    (baseline : List Interface) (cap tx rx : List Nat) (i : Nat) (b : Interface)
    (h : Succeeds net c ctx filter baseline cap tx rx)
    (htx : 1000 * tx.sum < 2 ^ 64) (hrx : 1000 * rx.sum < 2 ^ 64)
    (hb : baseline[i]? = some b) (hr : isRadio b = true) :
    ∃ (result : List Interface) (r : Interface) (radio : RadioInterface),
      (aviatCommunicator.GetInterfaces net c ctx filter).ret = .ok result ∧
      result[i]? = some r ∧ r.Radio = some radio ∧
      radio.MaxbitrateOut = some (1000 * tx.sum) ∧
      radio.MaxbitrateIn = some (1000 * rx.sum) ∧
      maxBitRateTxLoop (tx.map SNMPResponse.ofUInt64) = .ok (1000 * tx.sum) ∧
      maxBitRateRxLoop (rx.map SNMPResponse.ofUInt64) = .ok (1000 * rx.sum) := by
  refine ⟨_, enrich _ _ _ b, _, by rw [GetInterfaces_of_succeeds h],
    by rw [mergeLoop_getElem?, hb]; rfl, by rw [enrich_of_isRadio _ _ _ _ hr], ?_, ?_, ?_, ?_⟩
  · rw [Nat.mod_eq_of_lt htx]
  · rw [Nat.mod_eq_of_lt hrx]
  · rw [maxBitRateTxLoop_ofUInt64, Nat.mod_eq_of_lt htx]
  · rw [maxBitRateRxLoop_ofUInt64, Nat.mod_eq_of_lt hrx]

theorem maxbitrate_is_scaled_sum_witness :
    (aviatCommunicator.GetInterfaces (boundNetwork (walkOf [500]) (walkOf [10]) (walkOf [20]))
        (fixedCommunicator (.ok [radio01])) () ([] : List Unit)).ret
        = .ok [{ IfName := some "Radio0/1", MaxSpeedIn := some 500, MaxSpeedOut := some 500,
                 Radio := some { MaxbitrateOut := some 10000, MaxbitrateIn := some 20000 } }] ∧
      ∃ (result : List Interface) (r : Interface) (radio : RadioInterface),
        (aviatCommunicator.GetInterfaces
          (boundNetwork (walkOf [500]) (walkOf [10]) (walkOf [20]))
          (fixedCommunicator (.ok [radio01])) () ([] : List Unit)).ret = .ok result ∧
        result[0]? = some r ∧ r.Radio = some radio ∧
        radio.MaxbitrateOut = some (1000 * ([10] : List Nat).sum) ∧
        radio.MaxbitrateIn = some (1000 * ([20] : List Nat).sum) ∧
        maxBitRateTxLoop (([10] : List Nat).map SNMPResponse.ofUInt64)
          = .ok (1000 * ([10] : List Nat).sum) ∧
        maxBitRateRxLoop (([20] : List Nat).map SNMPResponse.ofUInt64)
          = .ok (1000 * ([20] : List Nat).sum) :=
  ⟨rfl,
    maxbitrate_is_scaled_sum (boundNetwork (walkOf [500]) (walkOf [10]) (walkOf [20]))
      (fixedCommunicator (.ok [radio01])) () [] [radio01] [500] [10] [20] 0 radio01
      ⟨rfl, rfl, ⟨fixedClient (walkOf [500]) (walkOf [10]) (walkOf [20])⟩, rfl, rfl, rfl, rfl⟩
      (by decide) (by decide) rfl (by decide)⟩

/-- C10: the baseline succeeds, a port is bound and one of the three walks returns the
transport error `e`. Then the invocation fails, returns no list, and the baseline slice
is left as the wrapped provider returned it. The error returned wraps `e` with the
message of the walk whenever that walk is issued, that is when the walks before it
succeeded and decoded. -/
theorem walk_failure_no_partial_enrichment {Ctx Filter : Type} (net : network Ctx)
    (c : aviatCommunicator Ctx Filter) (ctx : Ctx) (filter : List Filter)
    (baseline : List Interface) (con : RequestDeviceConnection Ctx)
    (snmp : RequestDeviceConnectionSNMP Ctx) (e : Error)
    (hb : c.codeCommunicator.deviceClass.GetInterfaces ctx filter = .ok baseline)
    (hcon : net.DeviceConnectionFromContext ctx = (con, true))
    (hsnmp : con.SNMP = some snmp)
    (hfail : snmp.SnmpClient.SNMPWalk ctx "1.3.6.1.4.1.2509.9.3.2.4.1.1" = .error e ∨
      snmp.SnmpClient.SNMPWalk ctx "1.3.6.1.4.1.2509.9.3.2.1.1.11" = .error e ∨
      snmp.SnmpClient.SNMPWalk ctx "1.3.6.1.4.1.2509.9.3.2.1.1.12" = .error e) :
    (∃ err, aviatCommunicator.GetInterfaces net c ctx filter = ⟨.error err, some baseline⟩) ∧
      (snmp.SnmpClient.SNMPWalk ctx "1.3.6.1.4.1.2509.9.3.2.4.1.1" = .error e →
        aviatCommunicator.GetInterfaces net c ctx filter
          = ⟨.error (Error.wrap e "failed to get aviatModemStatusMaxCapacity"),
              some baseline⟩) ∧
      (∀ cap : List Nat,
        snmp.SnmpClient.SNMPWalk ctx "1.3.6.1.4.1.2509.9.3.2.4.1.1"
          = .ok (cap.map SNMPResponse.ofUInt64) →
        snmp.SnmpClient.SNMPWalk ctx "1.3.6.1.4.1.2509.9.3.2.1.1.11" = .error e →
        aviatCommunicator.GetInterfaces net c ctx filter
          = ⟨.error (Error.wrap e "failed to get aviatModemCurCapacityTx"), some baseline⟩) ∧
      (∀ cap tx : List Nat,
        snmp.SnmpClient.SNMPWalk ctx "1.3.6.1.4.1.2509.9.3.2.4.1.1"
          = .ok (cap.map SNMPResponse.ofUInt64) →
        snmp.SnmpClient.SNMPWalk ctx "1.3.6.1.4.1.2509.9.3.2.1.1.11"
          = .ok (tx.map SNMPResponse.ofUInt64) →
        snmp.SnmpClient.SNMPWalk ctx "1.3.6.1.4.1.2509.9.3.2.1.1.12" = .error e →
        aviatCommunicator.GetInterfaces net c ctx filter
          = ⟨.error (Error.wrap e "failed to get aviatModemCurCapacityRx"), some baseline⟩) := by
  refine ⟨?_, ?_, ?_, ?_⟩
  · unfold aviatCommunicator.GetInterfaces
    rw [hb, hcon]
    simp only [hsnmp]
    rcases h1 : snmp.SnmpClient.SNMPWalk ctx "1.3.6.1.4.1.2509.9.3.2.4.1.1" with e1 | res1
    · exact ⟨_, rfl⟩
    dsimp only
    rcases l1 : maxCapacityLoop res1 with e1 | t1
    · exact ⟨_, rfl⟩
    dsimp only
    rcases h2 : snmp.SnmpClient.SNMPWalk ctx "1.3.6.1.4.1.2509.9.3.2.1.1.11" with e2 | res2
    · exact ⟨_, rfl⟩
    dsimp only
    rcases l2 : maxBitRateTxLoop res2 with e2 | t2
    · exact ⟨_, rfl⟩
    dsimp only
    rcases h3 : snmp.SnmpClient.SNMPWalk ctx "1.3.6.1.4.1.2509.9.3.2.1.1.12" with e3 | res3
    · exact ⟨_, rfl⟩
    rw [h1, h2, h3] at hfail
    simp at hfail
  · intro h1
    unfold aviatCommunicator.GetInterfaces
    rw [hb, hcon]
    simp only [hsnmp, h1]
  · intro cap h1 h2
    unfold aviatCommunicator.GetInterfaces
    rw [hb, hcon]
    simp only [hsnmp, h1, h2, maxCapacityLoop_ofUInt64]
  · intro cap tx h1 h2 h3
    unfold aviatCommunicator.GetInterfaces
    rw [hb, hcon]
    simp only [hsnmp, h1, h2, h3, maxCapacityLoop_ofUInt64, maxBitRateTxLoop_ofUInt64]

theorem walk_failure_no_partial_enrichment_witness :
    aviatCommunicator.GetInterfaces
        (boundNetwork (walkOf [500]) (.error (Error.new "request timeout")) (walkOf [20]))
        (fixedCommunicator (.ok [radio01])) () ([] : List Unit)
      = ⟨.error (Error.wrap (Error.new "request timeout")
            "failed to get aviatModemCurCapacityTx"), some [radio01]⟩ :=
  (walk_failure_no_partial_enrichment
    (boundNetwork (walkOf [500]) (.error (Error.new "request timeout")) (walkOf [20]))
    (fixedCommunicator (.ok [radio01])) () [] [radio01]
    ⟨some ⟨fixedClient (walkOf [500]) (.error (Error.new "request timeout")) (walkOf [20])⟩⟩
    ⟨fixedClient (walkOf [500]) (.error (Error.new "request timeout")) (walkOf [20])⟩
    (Error.new "request timeout") rfl rfl rfl (Or.inr (Or.inl rfl))).2.2.1 [500] rfl rfl

/-! ## Lemmas on failures and on the walks issued -/

theorem GetInterfacesTraced_fst {Ctx Filter : Type} (net : network Ctx)
    (c : aviatCommunicator Ctx Filter) (ctx : Ctx) (filter : List Filter) :
    (aviatCommunicator.GetInterfacesTraced net c ctx filter).1
      = aviatCommunicator.GetInterfaces net c ctx filter := by
  unfold aviatCommunicator.GetInterfacesTraced aviatCommunicator.GetInterfaces
  rcases c.codeCommunicator.deviceClass.GetInterfaces ctx filter with e | baseline
  · rfl
  rcases net.DeviceConnectionFromContext ctx with ⟨con, ok⟩
  cases ok with
  | false => rfl
  | true =>
    dsimp only
    rcases con.SNMP with _ | snmp
    · rfl
    dsimp only
    rcases snmp.SnmpClient.SNMPWalk ctx "1.3.6.1.4.1.2509.9.3.2.4.1.1" with e1 | res1
    · rfl
    dsimp only
    rcases maxCapacityLoop res1 with e1 | t1
    · rfl
    dsimp only
    rcases snmp.SnmpClient.SNMPWalk ctx "1.3.6.1.4.1.2509.9.3.2.1.1.11" with e2 | res2
    · rfl
    dsimp only
    rcases maxBitRateTxLoop res2 with e2 | t2
    · rfl
    dsimp only
    rcases snmp.SnmpClient.SNMPWalk ctx "1.3.6.1.4.1.2509.9.3.2.1.1.12" with e3 | res3
    · rfl
    dsimp only
    rcases maxBitRateRxLoop res3 with e3 | t3
    · rfl
    rfl

/-- A loop over a walk result with an entry that does not decode returns an error. -/
theorem walkLoop_error_of_decodeFails (getMsg parseMsg : String) (term : Nat → Nat)
    (res : List SNMPResponse) :
    ∀ total : Nat, (∃ r ∈ res, r.decodeFails = true) →
      ∃ err, walkLoop getMsg parseMsg term res total = .error err := by
  induction res with
  | nil => intro _ h; simp at h
  | cons r res ih =>
    intro total h
    obtain ⟨gv⟩ := r
    cases gv with
    | error e => exact ⟨_, rfl⟩
    | ok val =>
      obtain ⟨u⟩ := val
      cases u with
      | error e => exact ⟨_, rfl⟩
      | ok n =>
        simp only [walkLoop]
        apply ih
        obtain ⟨r, hr, hf⟩ := h
        rcases List.mem_cons.1 hr with rfl | hr
        · simp [SNMPResponse.decodeFails] at hf
        · exact ⟨r, hr, hf⟩

/-- The loop stops at the first entry that does not decode, whatever the number of
entries decoded before it and whatever follows it. -/
theorem walkLoop_first_failure (getMsg parseMsg : String) (term : Nat → Nat)
    (pre : List Nat) (r : SNMPResponse) (post : List SNMPResponse) (e : Error) :
    ∀ total : Nat,
      (r.GetValue = .error e →
        walkLoop getMsg parseMsg term (pre.map SNMPResponse.ofUInt64 ++ r :: post) total
          = .error (Error.wrap e getMsg)) ∧
      (∀ val : Value, r.GetValue = .ok val → val.UInt64 = .error e →
        walkLoop getMsg parseMsg term (pre.map SNMPResponse.ofUInt64 ++ r :: post) total
          = .error (Error.wrap e parseMsg)) := by
  induction pre with
  | nil =>
    intro total
    refine ⟨?_, ?_⟩
    · intro h
      simp [walkLoop, h]
    · intro val h1 h2
      simp [walkLoop, h1, h2]
  | cons v pre ih =>
    intro total
    simp only [List.map_cons, List.cons_append, walkLoop, SNMPResponse.ofUInt64]
    exact ih _

/-! ## Theorems: failures of `GetInterfaces` -/

/-- C11: the baseline succeeds, a port is bound, and in one of the three walks an entry
fails `GetValue` or fails the conversion to an unsigned 64-bit integer. Then
`GetInterfaces` returns an error and no list, and leaves the baseline slice as it was.
The loop over a walk stops at the first such entry with its error, wrapped in the message
of the loop, whatever its position: the entry is neither skipped nor counted as zero. -/
theorem decode_failure_fails_whole {Ctx Filter : Type} (net : network Ctx)
    (c : aviatCommunicator Ctx Filter) (ctx : Ctx) (filter : List Filter)
    (baseline : List Interface) (con : RequestDeviceConnection Ctx)
    (snmp : RequestDeviceConnectionSNMP Ctx) (oid : String) (res : List SNMPResponse)
    (r : SNMPResponse)
    (hb : c.codeCommunicator.deviceClass.GetInterfaces ctx filter = .ok baseline)
    (hcon : net.DeviceConnectionFromContext ctx = (con, true))
    (hsnmp : con.SNMP = some snmp)
    (hoid : oid ∈ ["1.3.6.1.4.1.2509.9.3.2.4.1.1", "1.3.6.1.4.1.2509.9.3.2.1.1.11",
      "1.3.6.1.4.1.2509.9.3.2.1.1.12"])
    (hwalk : snmp.SnmpClient.SNMPWalk ctx oid = .ok res)
    (hr : r ∈ res) (hfail : r.decodeFails = true) :
    (∃ err, aviatCommunicator.GetInterfaces net c ctx filter = ⟨.error err, some baseline⟩) ∧
      ∀ (getMsg parseMsg : String) (term : Nat → Nat) (pre : List Nat)
        (post : List SNMPResponse) (total : Nat) (e : Error),
        (r.GetValue = .error e →
          walkLoop getMsg parseMsg term (pre.map SNMPResponse.ofUInt64 ++ r :: post) total
            = .error (Error.wrap e getMsg)) ∧
        (∀ val : Value, r.GetValue = .ok val → val.UInt64 = .error e →
          walkLoop getMsg parseMsg term (pre.map SNMPResponse.ofUInt64 ++ r :: post) total
            = .error (Error.wrap e parseMsg)) := by
  refine ⟨?_, fun getMsg parseMsg term pre post total e =>
    walkLoop_first_failure getMsg parseMsg term pre r post e total⟩
  have hloop : ∀ getMsg parseMsg term total,
      ∃ err, walkLoop getMsg parseMsg term res total = .error err :=
    fun getMsg parseMsg term total =>
      walkLoop_error_of_decodeFails getMsg parseMsg term res total ⟨r, hr, hfail⟩
  unfold aviatCommunicator.GetInterfaces
  rw [hb, hcon]
  simp only [hsnmp]
  rcases h1 : snmp.SnmpClient.SNMPWalk ctx "1.3.6.1.4.1.2509.9.3.2.4.1.1" with e1 | res1
  · exact ⟨_, rfl⟩
  dsimp only
  rcases l1 : maxCapacityLoop res1 with e1 | t1
  · exact ⟨_, rfl⟩
  dsimp only
  rcases h2 : snmp.SnmpClient.SNMPWalk ctx "1.3.6.1.4.1.2509.9.3.2.1.1.11" with e2 | res2
  · exact ⟨_, rfl⟩
  dsimp only
  rcases l2 : maxBitRateTxLoop res2 with e2 | t2
  · exact ⟨_, rfl⟩
  dsimp only
  rcases h3 : snmp.SnmpClient.SNMPWalk ctx "1.3.6.1.4.1.2509.9.3.2.1.1.12" with e3 | res3
  · exact ⟨_, rfl⟩
  dsimp only
  rcases l3 : maxBitRateRxLoop res3 with e3 | t3
  · exact ⟨_, rfl⟩
  exfalso
  simp only [List.mem_cons, List.mem_singleton, List.not_mem_nil, or_false] at hoid
  rcases hoid with rfl | rfl | rfl
  · rw [h1] at hwalk
    cases hwalk
    obtain ⟨err, herr⟩ := hloop _ _ _ 0
    unfold maxCapacityLoop at l1
    rw [herr] at l1
    cases l1
  · rw [h2] at hwalk
    cases hwalk
    obtain ⟨err, herr⟩ := hloop _ _ _ 0
    unfold maxBitRateTxLoop at l2
    rw [herr] at l2
    cases l2
  · rw [h3] at hwalk
    cases hwalk
    obtain ⟨err, herr⟩ := hloop _ _ _ 0
    unfold maxBitRateRxLoop at l3
    rw [herr] at l3
    cases l3

theorem decode_failure_fails_whole_witness :
    aviatCommunicator.GetInterfaces
        (boundNetwork (walkOf [500]) (walkOf [10])
          (.ok [SNMPResponse.ofUInt64 5, SNMPResponse.ofUInt64 7, parseFailure,
            SNMPResponse.ofUInt64 9]))
        (fixedCommunicator (.ok [radio01])) () ([] : List Unit)
        = ⟨.error (Error.wrap (Error.new "value is not a number")
            "failed to parse aviatModemCurCapacityRx value"), some [radio01]⟩ ∧
      ∃ err,
        aviatCommunicator.GetInterfaces
          (boundNetwork (walkOf [500]) (walkOf [10])
            (.ok [SNMPResponse.ofUInt64 5, SNMPResponse.ofUInt64 7, parseFailure,
              SNMPResponse.ofUInt64 9]))
          (fixedCommunicator (.ok [radio01])) () ([] : List Unit)
          = ⟨.error err, some [radio01]⟩ :=
  ⟨rfl,
    (decode_failure_fails_whole
      (boundNetwork (walkOf [500]) (walkOf [10])
        (.ok [SNMPResponse.ofUInt64 5, SNMPResponse.ofUInt64 7, parseFailure,
          SNMPResponse.ofUInt64 9]))
      (fixedCommunicator (.ok [radio01])) () [] [radio01]
      ⟨some ⟨fixedClient (walkOf [500]) (walkOf [10])
        (.ok [SNMPResponse.ofUInt64 5, SNMPResponse.ofUInt64 7, parseFailure,
          SNMPResponse.ofUInt64 9])⟩⟩
      ⟨fixedClient (walkOf [500]) (walkOf [10])
        (.ok [SNMPResponse.ofUInt64 5, SNMPResponse.ofUInt64 7, parseFailure,
          SNMPResponse.ofUInt64 9])⟩
      "1.3.6.1.4.1.2509.9.3.2.1.1.12"
      [SNMPResponse.ofUInt64 5, SNMPResponse.ofUInt64 7, parseFailure, SNMPResponse.ofUInt64 9]
      parseFailure rfl rfl rfl (by decide) rfl (by simp) rfl).1⟩

/-- C12: when the wrapped provider fails with the error `e`, `GetInterfaces` returns
exactly `e` and no list, whatever the context, the connection bound to it and the filter,
and it issues no walk. -/
theorem baseline_failure_propagated {Ctx Filter : Type} (net : network Ctx)
    (c : aviatCommunicator Ctx Filter) (ctx : Ctx) (filter : List Filter) (e : Error)
    (hb : c.codeCommunicator.deviceClass.GetInterfaces ctx filter = .error e) :
    aviatCommunicator.GetInterfaces net c ctx filter = ⟨.error e, none⟩ ∧
      aviatCommunicator.GetInterfacesTraced net c ctx filter = (⟨.error e, none⟩, []) := by
  unfold aviatCommunicator.GetInterfaces aviatCommunicator.GetInterfacesTraced
  rw [hb]
  exact ⟨rfl, rfl⟩

theorem baseline_failure_propagated_witness :
    (aviatCommunicator.GetInterfaces (boundNetwork (walkOf [500]) (walkOf [10]) (walkOf [20]))
        (fixedCommunicator (.error (Error.new "no interfaces"))) () ([] : List Unit)
        = ⟨.error (Error.new "no interfaces"), none⟩ ∧
      aviatCommunicator.GetInterfacesTraced
        (boundNetwork (walkOf [500]) (walkOf [10]) (walkOf [20]))
        (fixedCommunicator (.error (Error.new "no interfaces"))) () ([] : List Unit)
        = (⟨.error (Error.new "no interfaces"), none⟩, [])) :=
  baseline_failure_propagated (boundNetwork (walkOf [500]) (walkOf [10]) (walkOf [20]))
    (fixedCommunicator (.error (Error.new "no interfaces"))) () [] (Error.new "no interfaces")
    rfl

/-- C13: when the baseline succeeds and the context carries no device connection, or the
connection has no SNMP part, `GetInterfaces` fails with the error
`errors.New("snmp client is empty")`, returns no list, and issues no walk. -/
theorem missing_port_is_fatal {Ctx Filter : Type} (net : network Ctx)
    (c : aviatCommunicator Ctx Filter) (ctx : Ctx) (filter : List Filter)
    (baseline : List Interface)
    (hb : c.codeCommunicator.deviceClass.GetInterfaces ctx filter = .ok baseline)
    (hno : (net.DeviceConnectionFromContext ctx).2 = false ∨
      (net.DeviceConnectionFromContext ctx).1.SNMP = none) :
    aviatCommunicator.GetInterfaces net c ctx filter
        = ⟨.error (Error.new "snmp client is empty"), some baseline⟩ ∧
      aviatCommunicator.GetInterfacesTraced net c ctx filter
        = (⟨.error (Error.new "snmp client is empty"), some baseline⟩, []) ∧
      (∀ result, (aviatCommunicator.GetInterfaces net c ctx filter).ret ≠ .ok result) := by
  have key : aviatCommunicator.GetInterfacesTraced net c ctx filter
      = (⟨.error (Error.new "snmp client is empty"), some baseline⟩, []) := by
    unfold aviatCommunicator.GetInterfacesTraced
    rw [hb]
    rcases hpair : net.DeviceConnectionFromContext ctx with ⟨con, ok⟩
    rw [hpair] at hno
    cases ok with
    | false => rfl
    | true =>
      rcases hno with h | h
      · cases h
      · dsimp only at h ⊢
        rw [h]
  have key2 : aviatCommunicator.GetInterfaces net c ctx filter
      = ⟨.error (Error.new "snmp client is empty"), some baseline⟩ := by
    rw [← GetInterfacesTraced_fst, key]
  refine ⟨key2, key, ?_⟩
  intro result h
  rw [key2] at h
  cases h

theorem missing_port_is_fatal_witness :
    (aviatCommunicator.GetInterfaces unboundNetwork (fixedCommunicator (.ok [radio01])) ()
        ([] : List Unit)
        = ⟨.error (Error.new "snmp client is empty"), some [radio01]⟩ ∧
      aviatCommunicator.GetInterfacesTraced unboundNetwork (fixedCommunicator (.ok [radio01]))
        () ([] : List Unit)
        = (⟨.error (Error.new "snmp client is empty"), some [radio01]⟩, []) ∧
      (∀ result,
        (aviatCommunicator.GetInterfaces unboundNetwork (fixedCommunicator (.ok [radio01])) ()
          ([] : List Unit)).ret ≠ .ok result)) ∧
      aviatCommunicator.GetInterfaces noSNMPNetwork (fixedCommunicator (.ok [radio01])) ()
        ([] : List Unit)
        = ⟨.error (Error.new "snmp client is empty"), some [radio01]⟩ :=
  ⟨missing_port_is_fatal unboundNetwork (fixedCommunicator (.ok [radio01])) () [] [radio01] rfl
      (Or.inl rfl),
    (missing_port_is_fatal noSNMPNetwork (fixedCommunicator (.ok [radio01])) () [] [radio01]
      rfl (Or.inr rfl)).1⟩

/-! ## Theorems: overwrite, equal speeds, empty walks, repeated invocation -/

/-- C14: in a successful invocation a matched interface gets the values computed from
the walks in `MaxSpeedIn`, `MaxSpeedOut`, `Radio.MaxbitrateOut` and `Radio.MaxbitrateIn`,
whatever values the baseline supplied for these fields. -/
theorem merge_overwrites_baseline {Ctx Filter : Type} (net : network Ctx)
    (c : aviatCommunicator Ctx Filter) (ctx : Ctx) (filter : List Filter)
    (baseline : List Interface) (cap tx rx : List Nat) (i : Nat) (b : Interface)
    (h : Succeeds net c ctx filter baseline cap tx rx)
    (hb : baseline[i]? = some b) (hr : isRadio b = true) :
    ∃ (result : List Interface) (r : Interface),
      (aviatCommunicator.GetInterfaces net c ctx filter).ret = .ok result ∧
      result[i]? = some r ∧
      r.MaxSpeedIn = some (cap.sum % 2 ^ 64) ∧ r.MaxSpeedOut = some (cap.sum % 2 ^ 64) ∧
      r.Radio = some { MaxbitrateOut := some (1000 * tx.sum % 2 ^ 64),
                       MaxbitrateIn := some (1000 * rx.sum % 2 ^ 64) } := by
  refine ⟨_, enrich _ _ _ b, by rw [GetInterfaces_of_succeeds h],
    by rw [mergeLoop_getElem?, hb]; rfl, ?_, ?_, ?_⟩ <;>
  rw [enrich_of_isRadio _ _ _ _ hr]

theorem merge_overwrites_baseline_witness :
    (radioWithOldFields.MaxSpeedIn = some 1 ∧ radioWithOldFields.MaxSpeedOut = some 2 ∧
      radioWithOldFields.Radio
        = some { LevelOut := some 7, LevelIn := some (-40), MaxbitrateOut := some 3,
                 MaxbitrateIn := some 4 }) ∧
      ∃ (result : List Interface) (r : Interface),
        (aviatCommunicator.GetInterfaces
          (boundNetwork (walkOf [500]) (walkOf [10]) (walkOf [20]))
          (fixedCommunicator (.ok [radioWithOldFields])) () ([] : List Unit)).ret
            = .ok result ∧
        result[0]? = some r ∧
        r.MaxSpeedIn = some (([500] : List Nat).sum % 2 ^ 64) ∧
        r.MaxSpeedOut = some (([500] : List Nat).sum % 2 ^ 64) ∧
        r.Radio = some { MaxbitrateOut := some (1000 * ([10] : List Nat).sum % 2 ^ 64),
                         MaxbitrateIn := some (1000 * ([20] : List Nat).sum % 2 ^ 64) } :=
  ⟨⟨rfl, rfl, rfl⟩,
    merge_overwrites_baseline (boundNetwork (walkOf [500]) (walkOf [10]) (walkOf [20]))
      (fixedCommunicator (.ok [radioWithOldFields])) () [] [radioWithOldFields] [500] [10]
      [20] 0 radioWithOldFields
      ⟨rfl, rfl, ⟨fixedClient (walkOf [500]) (walkOf [10]) (walkOf [20])⟩, rfl, rfl, rfl, rfl⟩
      rfl (by decide)⟩

/-- C15, counterexample: in the end-to-end scenario the enrichment sets `MaxSpeedIn` and
`MaxSpeedOut` of the interface `Radio0/1`, and the two values are both 500: they do not
differ. -/
theorem maxSpeed_differ_counterexample :
    Succeeds (boundNetwork (walkOf [500]) (walkOf [10]) (walkOf [20]))
        (fixedCommunicator (.ok [radio01])) () ([] : List Unit) [radio01] [500] [10] [20] ∧
      isRadio radio01 = true ∧
      ∃ r : Interface,
        (aviatCommunicator.GetInterfaces
          (boundNetwork (walkOf [500]) (walkOf [10]) (walkOf [20]))
          (fixedCommunicator (.ok [radio01])) () ([] : List Unit)).ret = .ok [r] ∧
        r.MaxSpeedIn = some 500 ∧ r.MaxSpeedOut = some 500 ∧
        ¬ (r.MaxSpeedIn ≠ r.MaxSpeedOut) :=
  ⟨⟨rfl, rfl, ⟨fixedClient (walkOf [500]) (walkOf [10]) (walkOf [20])⟩, rfl, rfl, rfl, rfl⟩,
    by decide, _, rfl, rfl, rfl, by decide⟩

/-- C15, amended: on every interface on which the enrichment sets `MaxSpeedIn` and
`MaxSpeedOut`, that is on every matched interface of a successful invocation, both are
present and hold the same value, the total of the max-capacity walk. -/
theorem maxSpeed_in_out_equal {Ctx Filter : Type} (net : network Ctx)
    (c : aviatCommunicator Ctx Filter) (ctx : Ctx) (filter : List Filter)
    (baseline : List Interface) (cap tx rx : List Nat) (i : Nat) (b : Interface)
    (h : Succeeds net c ctx filter baseline cap tx rx)
    (hb : baseline[i]? = some b) (hr : isRadio b = true) :
    ∃ (result : List Interface) (r : Interface) (maxCapacity : Nat),
      (aviatCommunicator.GetInterfaces net c ctx filter).ret = .ok result ∧
      result[i]? = some r ∧
      maxCapacityLoop (cap.map SNMPResponse.ofUInt64) = .ok maxCapacity ∧
      r.MaxSpeedIn = some maxCapacity ∧ r.MaxSpeedOut = some maxCapacity ∧
      r.MaxSpeedIn = r.MaxSpeedOut := by
  refine ⟨_, enrich _ _ _ b, _, by rw [GetInterfaces_of_succeeds h],
    by rw [mergeLoop_getElem?, hb]; rfl, maxCapacityLoop_ofUInt64 cap, ?_, ?_, ?_⟩ <;>
  rw [enrich_of_isRadio _ _ _ _ hr]

theorem maxSpeed_in_out_equal_witness :
    ∃ (result : List Interface) (r : Interface) (maxCapacity : Nat),
      (aviatCommunicator.GetInterfaces
        (boundNetwork (walkOf [1000, 2000, 1500]) (walkOf [10]) (walkOf [20]))
        (fixedCommunicator (.ok [radioWithOldFields])) () ([] : List Unit)).ret
          = .ok result ∧
      result[0]? = some r ∧
      maxCapacityLoop (([1000, 2000, 1500] : List Nat).map SNMPResponse.ofUInt64)
        = .ok maxCapacity ∧
      r.MaxSpeedIn = some maxCapacity ∧ r.MaxSpeedOut = some maxCapacity ∧
      r.MaxSpeedIn = r.MaxSpeedOut :=
  maxSpeed_in_out_equal
    (boundNetwork (walkOf [1000, 2000, 1500]) (walkOf [10]) (walkOf [20]))
    (fixedCommunicator (.ok [radioWithOldFields])) () [] [radioWithOldFields]
    [1000, 2000, 1500] [10] [20] 0 radioWithOldFields
    ⟨rfl, rfl, ⟨fixedClient (walkOf [1000, 2000, 1500]) (walkOf [10]) (walkOf [20])⟩, rfl, rfl,
      rfl, rfl⟩
    rfl (by decide)

/-- C16: when the baseline succeeds, a port is bound, the three walks succeed and
decode, and one or more of them return the empty sequence, `GetInterfaces` succeeds and
returns a list of the length of the baseline. -/
theorem empty_walk_not_error {Ctx Filter : Type} (net : network Ctx)
    (c : aviatCommunicator Ctx Filter) (ctx : Ctx) (filter : List Filter)
    (baseline : List Interface) (cap tx rx : List Nat)
    (h : Succeeds net c ctx filter baseline cap tx rx)
    (_hempty : cap = [] ∨ tx = [] ∨ rx = []) :
    ∃ result : List Interface,
      aviatCommunicator.GetInterfaces net c ctx filter = ⟨.ok result, some result⟩ ∧
      result.length = baseline.length :=
  ⟨_, GetInterfaces_of_succeeds h, mergeLoop_length _ _ _ _⟩

theorem empty_walk_not_error_witness :
    (fixedClient (walkOf [500]) (.ok []) (walkOf [20])).SNMPWalk ()
        "1.3.6.1.4.1.2509.9.3.2.1.1.11" = .ok [] ∧
      ∃ result : List Interface,
        aviatCommunicator.GetInterfaces
          (boundNetwork (walkOf [500]) (.ok []) (walkOf [20]))
          (fixedCommunicator (.ok [radio01, ethWithRadioFields])) () ([] : List Unit)
          = ⟨.ok result, some result⟩ ∧
        result.length = [radio01, ethWithRadioFields].length :=
  ⟨rfl,
    empty_walk_not_error (boundNetwork (walkOf [500]) (.ok []) (walkOf [20]))
      (fixedCommunicator (.ok [radio01, ethWithRadioFields])) () []
      [radio01, ethWithRadioFields] [500] [] [20]
      ⟨rfl, rfl, ⟨fixedClient (walkOf [500]) (.ok []) (walkOf [20])⟩, rfl, rfl, rfl, rfl⟩
      (Or.inr (Or.inl rfl))⟩

/-- C17: two invocations in which the wrapped provider returns the same result, the
context carries a connection in both or in neither, and each of the three walks returns
the same result, have equal outcomes: both fail with the same error, or both succeed
with the same list. -/
theorem GetInterfaces_repeatable {Ctx Filter : Type} (net net' : network Ctx)
    (c c' : aviatCommunicator Ctx Filter) (ctx ctx' : Ctx) (filter filter' : List Filter)
    (hbase : c.codeCommunicator.deviceClass.GetInterfaces ctx filter
      = c'.codeCommunicator.deviceClass.GetInterfaces ctx' filter')
    (hok : (net.DeviceConnectionFromContext ctx).2 = (net'.DeviceConnectionFromContext ctx').2)
    (hwalk : ∀ oid ∈ ["1.3.6.1.4.1.2509.9.3.2.4.1.1", "1.3.6.1.4.1.2509.9.3.2.1.1.11",
      "1.3.6.1.4.1.2509.9.3.2.1.1.12"], walkResult net ctx oid = walkResult net' ctx' oid) :
    aviatCommunicator.GetInterfaces net c ctx filter
        = aviatCommunicator.GetInterfaces net' c' ctx' filter' ∧
      ((∃ e, (aviatCommunicator.GetInterfaces net c ctx filter).ret = .error e ∧
          (aviatCommunicator.GetInterfaces net' c' ctx' filter').ret = .error e) ∨
        (∃ l, (aviatCommunicator.GetInterfaces net c ctx filter).ret = .ok l ∧
          (aviatCommunicator.GetInterfaces net' c' ctx' filter').ret = .ok l)) := by
  have key : aviatCommunicator.GetInterfaces net c ctx filter
      = aviatCommunicator.GetInterfaces net' c' ctx' filter' := by
    unfold aviatCommunicator.GetInterfaces
    rw [hbase]
    rcases c'.codeCommunicator.deviceClass.GetInterfaces ctx' filter' with e | baseline
    · rfl
    simp only [walkResult] at hwalk
    rcases hp : net.DeviceConnectionFromContext ctx with ⟨con, ok⟩
    rcases hp' : net'.DeviceConnectionFromContext ctx' with ⟨con', ok'⟩
    rw [hp, hp'] at hok hwalk
    dsimp only at hok hwalk ⊢
    subst hok
    cases ok with
    | false => rfl
    | true =>
      have h1 := hwalk "1.3.6.1.4.1.2509.9.3.2.4.1.1" (by simp)
      have h2 := hwalk "1.3.6.1.4.1.2509.9.3.2.1.1.11" (by simp)
      have h3 := hwalk "1.3.6.1.4.1.2509.9.3.2.1.1.12" (by simp)
      rcases hs : con.SNMP with _ | snmp <;> rcases hs' : con'.SNMP with _ | snmp'
      · rfl
      · rw [hs, hs'] at h1
        simp at h1
      · rw [hs, hs'] at h1
        simp at h1
      · rw [hs, hs'] at h1 h2 h3
        simp only [Option.map_some', Option.some.injEq] at h1 h2 h3
        dsimp only
        rw [h1, h2, h3]
  refine ⟨key, ?_⟩
  rw [← key]
  rcases (aviatCommunicator.GetInterfaces net c ctx filter).ret with e | l
  · exact Or.inl ⟨e, rfl, rfl⟩
  · exact Or.inr ⟨l, rfl, rfl⟩

theorem GetInterfaces_repeatable_witness :
    aviatCommunicator.GetInterfaces (boundNetwork (walkOf [500]) (walkOf [10]) (walkOf [20]))
          (fixedCommunicator (.ok [radio01, ethWithRadioFields])) () ([] : List Unit)
        = aviatCommunicator.GetInterfaces
          (boundNetwork (walkOf [500]) (walkOf [10]) (walkOf [20]))
          (fixedCommunicator (.ok [radio01, ethWithRadioFields])) () [()] ∧
      ((∃ e,
          (aviatCommunicator.GetInterfaces
            (boundNetwork (walkOf [500]) (walkOf [10]) (walkOf [20]))
            (fixedCommunicator (.ok [radio01, ethWithRadioFields])) ()
            ([] : List Unit)).ret = .error e ∧
          (aviatCommunicator.GetInterfaces
            (boundNetwork (walkOf [500]) (walkOf [10]) (walkOf [20]))
            (fixedCommunicator (.ok [radio01, ethWithRadioFields])) () [()]).ret
            = .error e) ∨
        (∃ l,
          (aviatCommunicator.GetInterfaces
            (boundNetwork (walkOf [500]) (walkOf [10]) (walkOf [20]))
            (fixedCommunicator (.ok [radio01, ethWithRadioFields])) ()
            ([] : List Unit)).ret = .ok l ∧
          (aviatCommunicator.GetInterfaces
            (boundNetwork (walkOf [500]) (walkOf [10]) (walkOf [20]))
            (fixedCommunicator (.ok [radio01, ethWithRadioFields])) () [()]).ret = .ok l)) :=
  GetInterfaces_repeatable (boundNetwork (walkOf [500]) (walkOf [10]) (walkOf [20]))
    (boundNetwork (walkOf [500]) (walkOf [10]) (walkOf [20]))
    (fixedCommunicator (.ok [radio01, ethWithRadioFields]))
    (fixedCommunicator (.ok [radio01, ethWithRadioFields])) () () [] [()] rfl rfl
    (fun _ _ => rfl)

/-! ## Theorems: device properties in a context -/

theorem DevicePropertiesFromContext_of_not_deviceBound {K V : Type} [DecidableEq K]
    (ctx : Context K V) (h : ctx.deviceBound = false) :
    DevicePropertiesFromContext ctx = ({}, false) := by
  unfold DevicePropertiesFromContext
  induction ctx with
  | background => rfl
  | withValue parent key val ih =>
    simp only [Context.deviceBound, Bool.or_eq_false_iff, Bool.and_eq_false_iff,
      decide_eq_false_iff_not] at h
    obtain ⟨h1, h2⟩ := h
    simp only [Context.Value]
    by_cases hk : key = devicePropertiesKey
    · rw [if_pos hk]
      rcases h1 with h1 | h1
      · exact absurd hk h1
      · cases val with
        | device d => simp at h1
        | other v => rfl
    · rw [if_neg hk]
      exact ih h2

/-- C20: for every context and every device, reading the device properties from the
context returned by `NewContextWithDeviceProperties` gives the device and `true`; a
context in which no device was bound gives `false`; and every key other than
`devicePropertiesKey` has in the new context the value it has in the old one. -/
theorem device_properties_context_round_trip {K V : Type} [DecidableEq K]
    (ctx ctx0 : Context K V) (d : Device) (k : ContextKey K)
    (hk : k ≠ devicePropertiesKey) (h0 : ctx0.deviceBound = false) :
    DevicePropertiesFromContext (NewContextWithDeviceProperties ctx d) = (d, true) ∧
      (DevicePropertiesFromContext ctx0).2 = false ∧
      (NewContextWithDeviceProperties ctx d).Value k = ctx.Value k := by
  refine ⟨?_, ?_, ?_⟩
  · simp [DevicePropertiesFromContext, NewContextWithDeviceProperties, Context.Value]
  · rw [DevicePropertiesFromContext_of_not_deviceBound ctx0 h0]
  · simp only [NewContextWithDeviceProperties, Context.Value]
    rw [if_neg (fun h => hk h.symm)]

theorem device_properties_context_round_trip_witness :
    DevicePropertiesFromContext
        (NewContextWithDeviceProperties
          (Context.withValue
            (Context.withValue Context.background devicePropertiesKey
              (ContextValue.device { Class := "ios" }))
            (ContextKey.other "requestID") (ContextValue.other (17 : Nat)))
          { Class := "routerOS", Properties := { Vendor := some "Mikrotik" } })
        = ({ Class := "routerOS", Properties := { Vendor := some "Mikrotik" } }, true) ∧
      (DevicePropertiesFromContext
        (Context.withValue Context.background (ContextKey.other "requestID")
          (ContextValue.other (17 : Nat)))).2 = false ∧
      (NewContextWithDeviceProperties
          (Context.withValue
            (Context.withValue Context.background devicePropertiesKey
              (ContextValue.device { Class := "ios" }))
            (ContextKey.other "requestID") (ContextValue.other (17 : Nat)))
          { Class := "routerOS", Properties := { Vendor := some "Mikrotik" } }).Value
          (ContextKey.other "requestID")
        = (Context.withValue
            (Context.withValue Context.background devicePropertiesKey
              (ContextValue.device { Class := "ios" }))
            (ContextKey.other "requestID") (ContextValue.other (17 : Nat))).Value
          (ContextKey.other "requestID") :=
  device_properties_context_round_trip _ _ _ _ (by decide) (by decide)

/-! ## Lemmas on the serialized form -/

theorem lookupKey_append (key : String) (a b : Doc) :
    lookupKey key (a ++ b) = (lookupKey key a).orElse (fun _ => lookupKey key b) := by
  induction a with
  | nil => rfl
  | cons p a ih =>
    obtain ⟨k, w⟩ := p
    simp only [List.cons_append, lookupKey]
    by_cases h : k = key
    · simp [h]
    · simp [h, ih]

theorem lookupKey_emit_of_ne (enc : Encoding) (tag key : String) (w : Wire)
    (h : tagName tag ≠ key) : lookupKey key (emit enc tag w) = none := by
  unfold emit
  split_ifs <;> simp [lookupKey, h]

theorem lookupKey_encode_of_not_mem (enc : Encoding) (key : String) :
    ∀ (tags : List String) (ws : List Wire), key ∉ tags.map tagName →
      lookupKey key (encode enc tags ws) = none := by
  intro tags
  induction tags with
  | nil => intro ws _; rfl
  | cons tag tags ih =>
    intro ws h
    cases ws with
    | nil => rfl
    | cons w ws =>
      simp only [List.map_cons, List.mem_cons, not_or] at h
      simp only [encode, lookupKey_append,
        lookupKey_emit_of_ne enc tag key w (fun e => h.1 e.symm), ih ws h.2]
      rfl

theorem readTag_emit_append (enc : Encoding) (tag : String) (w : Wire) (rest : Doc)
    (h : lookupKey (tagName tag) rest = none) :
    readTag tag (emit enc tag w ++ rest) = if tagName tag = "-" then Wire.null else w := by
  unfold readTag
  by_cases hx : tagName tag = "-"
  · simp [hx]
  · simp only [hx, if_false, lookupKey_append, h]
    unfold emit
    simp only [hx, if_false]
    split_ifs with hw
    · simp [lookupKey, hw.1]
    · simp [lookupKey]

theorem readTag_emit_append_of_ne (enc : Encoding) (tag tag' : String) (w : Wire) (rest : Doc)
    (h : tagName tag ≠ tagName tag') :
    readTag tag' (emit enc tag w ++ rest) = readTag tag' rest := by
  unfold readTag
  simp [lookupKey_append, lookupKey_emit_of_ne enc tag (tagName tag') w h]

/-- Reading the fields back under their tags finds, field by field, the entry written
for that field, and `null` for the fields with the key "-", when the keys of the tags
are pairwise distinct. An entry holds the value handed to the value encoder: this is a
statement on keys, not on the text of a value. -/
theorem decode_encode (enc : Encoding) :
    ∀ (tags : List String) (ws : List Wire), (tags.map tagName).Nodup →
      tags.length = ws.length →
      decode tags (encode enc tags ws)
        = List.zipWith (fun tag w => if tagName tag = "-" then Wire.null else w) tags ws := by
  intro tags
  induction tags with
  | nil => intro ws _ _; rfl
  | cons tag tags ih =>
    intro ws hnd hlen
    cases ws with
    | nil => simp at hlen
    | cons w ws =>
      simp only [List.map_cons, List.nodup_cons] at hnd
      simp only [List.length_cons, Nat.add_right_cancel_iff] at hlen
      simp only [decode, encode, List.map_cons, List.zipWith_cons_cons]
      congr 1
      · exact readTag_emit_append enc tag w _
          (lookupKey_encode_of_not_mem enc _ tags ws hnd.1)
      · rw [← ih ws hnd.2 hlen]
        unfold decode
        apply List.map_congr_left
        intro tag' hmem
        apply readTag_emit_append_of_ne
        intro e
        exact hnd.1 (e ▸ List.mem_map_of_mem tagName hmem)

/-- The value under the key of a field in the serialized form of a record is what was
written for that field alone, when the keys of the tags are pairwise distinct. -/
theorem lookupKey_encode (enc : Encoding) :
    ∀ (tags : List String) (ws : List Wire), (tags.map tagName).Nodup →
      ∀ (k : Nat) (tag : String) (w : Wire), tags[k]? = some tag → ws[k]? = some w →
        lookupKey (tagName tag) (encode enc tags ws) = lookupKey (tagName tag) (emit enc tag w) := by
  intro tags
  induction tags with
  | nil => intro ws _ k tag w h; simp at h
  | cons tag0 tags ih =>
    intro ws hnd k tag w htag hw
    cases ws with
    | nil => simp at hw
    | cons w0 ws =>
      simp only [List.map_cons, List.nodup_cons] at hnd
      cases k with
      | zero =>
        simp only [List.getElem?_cons_zero, Option.some.injEq] at htag hw
        subst htag
        subst hw
        simp only [encode, lookupKey_append,
          lookupKey_encode_of_not_mem enc _ tags ws hnd.1]
        cases lookupKey (tagName tag0) (emit enc tag0 w0) <;> rfl
      | succ k =>
        simp only [List.getElem?_cons_succ] at htag hw
        have hmem : tag ∈ tags := List.mem_iff_getElem?.2 ⟨k, htag⟩
        have hne : tagName tag0 ≠ tagName tag := by
          intro e
          exact hnd.1 (e ▸ List.mem_map_of_mem tagName hmem)
        simp only [encode, lookupKey_append, lookupKey_emit_of_ne enc tag0 _ w0 hne]
        exact ih ws hnd.2 k tag w htag hw

theorem lookupKey_emit_null (enc : Encoding) (tag : String) :
    lookupKey (tagName tag) (emit enc tag Wire.null)
      = if omittedWhenAbsent tag = true ∨ enc = Encoding.xml then none else some Wire.null := by
  unfold emit omittedWhenAbsent
  by_cases hx : tagName tag = "-"
  · simp [hx, lookupKey]
  · by_cases ho : tagOmitEmpty tag = true
    · simp [hx, ho, lookupKey]
    · by_cases he : enc = Encoding.xml
      · simp [hx, he, lookupKey]
      · simp [hx, ho, he, lookupKey]

theorem uint?_ofOption (o : Option Nat) : (Wire.ofOption Wire.uint o).uint? = o := by
  cases o <;> rfl

theorem str?_ofOption (o : Option String) : (Wire.ofOption Wire.str o).str? = o := by
  cases o <;> rfl

theorem ethernetLike?_ofOption (o : Option EthernetLikeInterface) :
    (Wire.ofOption Wire.ethernetLike o).ethernetLike? = o := by
  cases o <;> rfl

theorem radio?_ofOption (o : Option RadioInterface) :
    (Wire.ofOption Wire.radio o).radio? = o := by
  cases o <;> rfl

theorem dwdm?_ofOption (o : Option DWDMInterface) :
    (Wire.ofOption Wire.dwdm o).dwdm? = o := by
  cases o <;> rfl

theorem opticalTransponder?_ofOption (o : Option OpticalTransponderInterface) :
    (Wire.ofOption Wire.opticalTransponder o).opticalTransponder? = o := by
  cases o <;> rfl

theorem opticalAmplifier?_ofOption (o : Option OpticalAmplifierInterface) :
    (Wire.ofOption Wire.opticalAmplifier o).opticalAmplifier? = o := by
  cases o <;> rfl

theorem opticalOPM?_ofOption (o : Option OpticalOPMInterface) :
    (Wire.ofOption Wire.opticalOPM o).opticalOPM? = o := by
  cases o <;> rfl

theorem sap?_ofOption (o : Option SAPInterface) : (Wire.ofOption Wire.sap o).sap? = o := by
  cases o <;> rfl

theorem vlan?_ofOption (o : Option VLANInformation) :
    (Wire.ofOption Wire.vlan o).vlan? = o := by
  cases o <;> rfl

theorem interface_keys_nodup (enc : Encoding) :
    ((interfaceFields.map (fun f => f.tag enc)).map tagName).Nodup := by
  cases enc <;> decide

theorem Interface.ofValues_values (i : Interface) : Interface.ofValues i.values = i := by
  cases i
  simp only [Interface.ofValues, Interface.values, List.getD_cons_zero, List.getD_cons_succ,
    uint?_ofOption, str?_ofOption, ethernetLike?_ofOption, radio?_ofOption, dwdm?_ofOption,
    opticalTransponder?_ofOption, opticalAmplifier?_ofOption, opticalOPM?_ofOption,
    sap?_ofOption, vlan?_ofOption]

/-- The entries found under the tags of `Interface` are those of the interface without
its `SubType`. -/
theorem Interface.values_read_back (enc : Encoding) (i : Interface) :
    List.zipWith (fun tag w => if tagName tag = "-" then Wire.null else w)
        (interfaceFields.map (fun f => f.tag enc)) i.values
      = ({ i with SubType := none } : Interface).values := by
  cases enc <;> rfl

/-! ## Theorems: the serialized form -/

/-- C18, counterexample: an interface with `SubType` present. Its serialized form has no
entry for `SubType` under any of the three encodings, and the interface read back has
`SubType` absent. -/
theorem subType_round_trip_counterexample :
    radio01WithSubType.SubType = some "radio" ∧
      (∀ enc : Encoding,
        (Interface.deserialize enc (Interface.serialize enc radio01WithSubType)).SubType
          = none) ∧
      Interface.deserialize Encoding.json (Interface.serialize Encoding.json radio01WithSubType)
        ≠ radio01WithSubType := by
  refine ⟨rfl, ?_, by decide⟩
  intro enc
  cases enc <;> decide

theorem Interface.values_without_subType (i : Interface) :
    ({ i with SubType := none } : Interface).values = i.values.set 39 Wire.null := by
  cases i
  rfl

/-- C18, amended: under each of the three encodings `SubType`, whose tag is "-", is not
written: the serialized form of an interface is that of the interface without `SubType`,
and the interface read from any serialized form has `SubType` absent, so `SubType` is
absent after the round trip also when it was present. Every field that was absent is
absent after the round trip, not a zero value. Every field other than `SubType` has a
key that is not "-", and the keys of the fields are pairwise distinct. Nothing is said
of a present value coming back equal: that is decided by the value encoders of the
libraries. -/
theorem interface_round_trip_subType_and_absent (enc : Encoding) (i : Interface) (doc : Doc)
    (k : Nat) (hk : i.values[k]? = some Wire.null) :
    Interface.serialize enc i = Interface.serialize enc { i with SubType := none } ∧
      (Interface.deserialize enc doc).SubType = none ∧
      (Interface.deserialize enc (Interface.serialize enc i)).SubType = none ∧
      (Interface.deserialize enc (Interface.serialize enc i)).values[k]? = some Wire.null ∧
      (interfaceFields.map (fun f => tagName (f.tag enc))).Nodup ∧
      (∀ f ∈ interfaceFields, (tagName (f.tag enc) = "-" ↔ f.field = "SubType")) := by
  have hsub : ∀ d : Doc, (Interface.deserialize enc d).SubType = none := by
    intro d
    cases enc <;> rfl
  refine ⟨?_, hsub doc, hsub _, ?_, ?_, ?_⟩
  · cases i
    cases enc <;> rfl
  · have hrt : Interface.deserialize enc (Interface.serialize enc i)
        = { i with SubType := none } := by
      unfold Interface.deserialize Interface.serialize
      rw [decode_encode enc _ _ (interface_keys_nodup enc) (by rfl),
        Interface.values_read_back, Interface.ofValues_values]
    rw [hrt, Interface.values_without_subType, List.getElem?_set]
    by_cases h39 : 39 = k
    · subst h39
      have hlen : i.values.length = 48 := rfl
      simp [hlen]
    · simp [h39, hk]
  · cases enc <;> decide
  · cases enc <;> decide

theorem interface_round_trip_subType_and_absent_witness :
    Interface.serialize Encoding.xml radio01WithSubType
        = Interface.serialize Encoding.xml { radio01WithSubType with SubType := none } ∧
      (Interface.deserialize Encoding.xml
        [("ifIndex", Wire.uint 3), ("sub_type", Wire.str "radio")]).SubType = none ∧
      (Interface.deserialize Encoding.xml
        (Interface.serialize Encoding.xml radio01WithSubType)).SubType = none ∧
      (Interface.deserialize Encoding.xml
        (Interface.serialize Encoding.xml radio01WithSubType)).values[0]? = some Wire.null ∧
      (interfaceFields.map (fun f => tagName (f.tag Encoding.xml))).Nodup ∧
      (∀ f ∈ interfaceFields, (tagName (f.tag Encoding.xml) = "-" ↔ f.field = "SubType")) :=
  interface_round_trip_subType_and_absent Encoding.xml radio01WithSubType
    [("ifIndex", Wire.uint 3), ("sub_type", Wire.str "radio")] 0 (by decide)

/-- C19, counterexample: `IfIndex` of `Interface` and `Vendor` of `Properties` are
optional fields whose tags have no `omitempty` and are not excluded, under each of the
three tag keys; the JSON and YAML forms of the interface without any field have the key
`ifIndex` with the value `null`. -/
theorem absent_field_emitted_counterexample :
    (⟨"Interface", "IfIndex", "*uint64", "ifIndex", "ifIndex", "ifIndex"⟩ : StructField)
        ∈ structFields ∧
      (⟨"Properties", "Vendor", "*string", "vendor", "vendor", "vendor"⟩ : StructField)
        ∈ structFields ∧
      StructField.optional ⟨"Interface", "IfIndex", "*uint64", "ifIndex", "ifIndex", "ifIndex"⟩
        = true ∧
      StructField.optional ⟨"Properties", "Vendor", "*string", "vendor", "vendor", "vendor"⟩
        = true ∧
      omittedWhenAbsent "ifIndex" = false ∧ omittedWhenAbsent "vendor" = false ∧
      ({} : Interface).IfIndex = none ∧
      lookupKey "ifIndex" (Interface.serialize Encoding.json {}) = some Wire.null ∧
      lookupKey "ifIndex" (Interface.serialize Encoding.yaml {}) = some Wire.null := by
  decide

set_option maxRecDepth 100000 in
/-- C19, amended: an optional field of a struct of `device.go` is excluded or has
`omitempty` in its tag, under each of the three tag keys, exactly when it is a field of a
technology block, one of the eight technology slots of `Interface`, or `SubType`. For a
field of `Interface` that is absent, the JSON and YAML forms have no entry under its key
when the tag is of this kind and the entry `null` otherwise; the XML form has no entry
in either case. -/
theorem absent_field_omitted_iff (f : StructField) (enc : Encoding)
    (hf : f ∈ structFields) (hopt : f.optional = true) :
    (omittedWhenAbsent (f.tag enc) = true ↔
        (f.struct ∈ technologyStructs ∨
          (f.struct = "Interface" ∧ (f.field = "SubType" ∨ f.field ∈ technologySlots)))) ∧
      ∀ (i : Interface) (k : Nat), interfaceFields[k]? = some f →
        i.values[k]? = some Wire.null →
        lookupKey (tagName (f.tag enc)) (Interface.serialize enc i)
          = if omittedWhenAbsent (f.tag enc) = true ∨ enc = Encoding.xml then none
            else some Wire.null := by
  refine ⟨?_, ?_⟩
  · cases enc
    · have key : ∀ g ∈ structFields, g.optional = true →
          (omittedWhenAbsent g.yaml = true ↔
            (g.struct ∈ technologyStructs ∨
              (g.struct = "Interface" ∧
                (g.field = "SubType" ∨ g.field ∈ technologySlots)))) := by
        decide
      exact key f hf hopt
    · have key : ∀ g ∈ structFields, g.optional = true →
          (omittedWhenAbsent g.json = true ↔
            (g.struct ∈ technologyStructs ∨
              (g.struct = "Interface" ∧
                (g.field = "SubType" ∨ g.field ∈ technologySlots)))) := by
        decide
      exact key f hf hopt
    · have key : ∀ g ∈ structFields, g.optional = true →
          (omittedWhenAbsent g.xml = true ↔
            (g.struct ∈ technologyStructs ∨
              (g.struct = "Interface" ∧
                (g.field = "SubType" ∨ g.field ∈ technologySlots)))) := by
        decide
      exact key f hf hopt
  · intro i k hk hv
    unfold Interface.serialize
    rw [lookupKey_encode enc _ _ (interface_keys_nodup enc) k (f.tag enc) Wire.null
      (by rw [List.getElem?_map, hk]; rfl) hv]
    exact lookupKey_emit_null enc (f.tag enc)

theorem absent_field_omitted_iff_witness :
    ((omittedWhenAbsent "max_speed_in" = true ↔
        ("Interface" ∈ technologyStructs ∨
          ("Interface" = "Interface" ∧
            ("MaxSpeedIn" = "SubType" ∨ "MaxSpeedIn" ∈ technologySlots)))) ∧
      ∀ (i : Interface) (k : Nat),
        interfaceFields[k]?
          = some ⟨"Interface", "MaxSpeedIn", "*uint64", "max_speed_in", "max_speed_in",
              "max_speed_in"⟩ →
        i.values[k]? = some Wire.null →
        lookupKey (tagName "max_speed_in") (Interface.serialize Encoding.json i)
          = if omittedWhenAbsent "max_speed_in" = true ∨ Encoding.json = Encoding.xml then none
            else some Wire.null) ∧
      omittedWhenAbsent "max_speed_in" = false ∧
      omittedWhenAbsent "radio,omitempty" = true ∧ omittedWhenAbsent "-" = true :=
  ⟨absent_field_omitted_iff
      ⟨"Interface", "MaxSpeedIn", "*uint64", "max_speed_in", "max_speed_in", "max_speed_in"⟩
      Encoding.json (by decide) (by decide),
    by decide, by decide, by decide⟩

/-! ## Theorems: frame and arithmetic of the merge -/

/-- C21: in a successful invocation, a matched interface whose baseline radio block had
`LevelIn` or `LevelOut` present has in the result a radio block with `LevelIn` and
`LevelOut` absent and `MaxbitrateOut` and `MaxbitrateIn` present: the block is replaced as
a whole and the level readings of the baseline are gone. -/
theorem merge_replaces_radio_block {Ctx Filter : Type} (net : network Ctx)
    (c : aviatCommunicator Ctx Filter) (ctx : Ctx) (filter : List Filter)
    (baseline : List Interface) (cap tx rx : List Nat) (i : Nat) (b : Interface)
    (old : RadioInterface)
    (h : Succeeds net c ctx filter baseline cap tx rx)
    (hb : baseline[i]? = some b) (hr : isRadio b = true)
    (_hold : b.Radio = some old)
    (_hlevel : old.LevelIn.isSome = true ∨ old.LevelOut.isSome = true) :
    ∃ (result : List Interface) (r : Interface) (radio : RadioInterface),
      (aviatCommunicator.GetInterfaces net c ctx filter).ret = .ok result ∧
      result[i]? = some r ∧ r.Radio = some radio ∧
      radio.LevelIn = none ∧ radio.LevelOut = none ∧
      radio.MaxbitrateOut.isSome = true ∧ radio.MaxbitrateIn.isSome = true := by
  refine ⟨_, enrich _ _ _ b,
    { MaxbitrateOut := some (1000 * tx.sum % 2 ^ 64),
      MaxbitrateIn := some (1000 * rx.sum % 2 ^ 64) },
    by rw [GetInterfaces_of_succeeds h], by rw [mergeLoop_getElem?, hb]; rfl,
    by rw [enrich_of_isRadio _ _ _ _ hr], rfl, rfl, rfl, rfl⟩

theorem merge_replaces_radio_block_witness :
    radioWithOldFields.Radio
        = some { LevelOut := some 7, LevelIn := some (-40), MaxbitrateOut := some 3,
                 MaxbitrateIn := some 4 } ∧
      ∃ (result : List Interface) (r : Interface) (radio : RadioInterface),
        (aviatCommunicator.GetInterfaces
          (boundNetwork (walkOf [500]) (walkOf [10]) (walkOf [20]))
          (fixedCommunicator (.ok [ethWithRadioFields, radioWithOldFields])) ()
          ([] : List Unit)).ret = .ok result ∧
        result[1]? = some r ∧ r.Radio = some radio ∧
        radio.LevelIn = none ∧ radio.LevelOut = none ∧
        radio.MaxbitrateOut.isSome = true ∧ radio.MaxbitrateIn.isSome = true :=
  ⟨rfl,
    merge_replaces_radio_block (boundNetwork (walkOf [500]) (walkOf [10]) (walkOf [20]))
      (fixedCommunicator (.ok [ethWithRadioFields, radioWithOldFields])) () []
      [ethWithRadioFields, radioWithOldFields] [500] [10] [20] 1 radioWithOldFields
      { LevelOut := some 7, LevelIn := some (-40), MaxbitrateOut := some 3,
        MaxbitrateIn := some 4 }
      ⟨rfl, rfl, ⟨fixedClient (walkOf [500]) (walkOf [10]) (walkOf [20])⟩, rfl, rfl, rfl, rfl⟩
      rfl (by decide) rfl (Or.inl rfl)⟩

theorem enrich_frame (a t r : Nat) (b : Interface) :
    { enrich a t r b with
        MaxSpeedIn := b.MaxSpeedIn, MaxSpeedOut := b.MaxSpeedOut, Radio := b.Radio } = b := by
  cases h : isRadio b
  · rw [enrich_of_not_isRadio _ _ _ _ h]
  · rw [enrich_of_isRadio _ _ _ _ h]

/-- C22: in a successful invocation the result has the length of the baseline, and for
every index the result entry is the baseline entry of that index in every field other
than `MaxSpeedIn`, `MaxSpeedOut` and `Radio`: putting the three baseline values back
gives the baseline entry. So `IfName`, `IfSpeed`, the counters, `SubType` and the other
technology slots are unchanged, on matched entries too. -/
theorem merge_frame {Ctx Filter : Type} (net : network Ctx)
    (c : aviatCommunicator Ctx Filter) (ctx : Ctx) (filter : List Filter)
    (baseline : List Interface) (cap tx rx : List Nat)
    (h : Succeeds net c ctx filter baseline cap tx rx) :
    ∃ result : List Interface,
      (aviatCommunicator.GetInterfaces net c ctx filter).ret = .ok result ∧
      result.length = baseline.length ∧
      ∀ (i : Nat) (b : Interface), baseline[i]? = some b →
        ∃ r : Interface, result[i]? = some r ∧
          { r with MaxSpeedIn := b.MaxSpeedIn, MaxSpeedOut := b.MaxSpeedOut, Radio := b.Radio }
            = b ∧
          r.IfName = b.IfName ∧ r.IfSpeed = b.IfSpeed ∧ r.IfInOctets = b.IfInOctets ∧
          r.IfHCOutOctets = b.IfHCOutOctets ∧ r.SubType = b.SubType ∧
          r.EthernetLike = b.EthernetLike ∧ r.DWDM = b.DWDM ∧
          r.OpticalTransponder = b.OpticalTransponder ∧
          r.OpticalAmplifier = b.OpticalAmplifier ∧ r.OpticalOPM = b.OpticalOPM ∧
          r.SAP = b.SAP ∧ r.VLAN = b.VLAN := by
  refine ⟨_, by rw [GetInterfaces_of_succeeds h], mergeLoop_length _ _ _ _, ?_⟩
  intro i b hb
  refine ⟨enrich _ _ _ b, by rw [mergeLoop_getElem?, hb]; rfl, enrich_frame _ _ _ b, ?_⟩
  cases hr : isRadio b
  · rw [enrich_of_not_isRadio _ _ _ _ hr]
    simp
  · rw [enrich_of_isRadio _ _ _ _ hr]
    simp

theorem merge_frame_witness :
    ∃ result : List Interface,
      (aviatCommunicator.GetInterfaces (boundNetwork (walkOf [500]) (walkOf [10]) (walkOf [20]))
        (fixedCommunicator (.ok [radio01WithSubType, ethWithRadioFields])) ()
        ([] : List Unit)).ret = .ok result ∧
      result.length = [radio01WithSubType, ethWithRadioFields].length ∧
      ∀ (i : Nat) (b : Interface), [radio01WithSubType, ethWithRadioFields][i]? = some b →
        ∃ r : Interface, result[i]? = some r ∧
          { r with MaxSpeedIn := b.MaxSpeedIn, MaxSpeedOut := b.MaxSpeedOut, Radio := b.Radio }
            = b ∧
          r.IfName = b.IfName ∧ r.IfSpeed = b.IfSpeed ∧ r.IfInOctets = b.IfInOctets ∧
          r.IfHCOutOctets = b.IfHCOutOctets ∧ r.SubType = b.SubType ∧
          r.EthernetLike = b.EthernetLike ∧ r.DWDM = b.DWDM ∧
          r.OpticalTransponder = b.OpticalTransponder ∧
          r.OpticalAmplifier = b.OpticalAmplifier ∧ r.OpticalOPM = b.OpticalOPM ∧
          r.SAP = b.SAP ∧ r.VLAN = b.VLAN :=
  merge_frame (boundNetwork (walkOf [500]) (walkOf [10]) (walkOf [20]))
    (fixedCommunicator (.ok [radio01WithSubType, ethWithRadioFields])) () []
    [radio01WithSubType, ethWithRadioFields] [500] [10] [20]
    ⟨rfl, rfl, ⟨fixedClient (walkOf [500]) (walkOf [10]) (walkOf [20])⟩, rfl, rfl, rfl, rfl⟩

/-- C23: when the baseline succeeds, a port is bound and the three walks return empty
sequences, every matched interface of the result has `MaxSpeedIn` and `MaxSpeedOut`
present with the value 0 and a radio block with `MaxbitrateOut` and `MaxbitrateIn`
present with the value 0, and every other interface is unchanged. -/
theorem empty_walks_give_zero {Ctx Filter : Type} (net : network Ctx)
    (c : aviatCommunicator Ctx Filter) (ctx : Ctx) (filter : List Filter)
    (baseline : List Interface)
    (h : Succeeds net c ctx filter baseline [] [] []) :
    ∃ result : List Interface,
      (aviatCommunicator.GetInterfaces net c ctx filter).ret = .ok result ∧
      ∀ (i : Nat) (b : Interface), baseline[i]? = some b →
        ∃ r : Interface, result[i]? = some r ∧
          (isRadio b = true →
            r.MaxSpeedIn = some 0 ∧ r.MaxSpeedOut = some 0 ∧
            r.Radio = some { MaxbitrateOut := some 0, MaxbitrateIn := some 0 }) ∧
          (isRadio b = false → r = b) := by
  refine ⟨_, by rw [GetInterfaces_of_succeeds h], ?_⟩
  intro i b hb
  refine ⟨enrich _ _ _ b, by rw [mergeLoop_getElem?, hb]; rfl, ?_, ?_⟩
  · intro hr
    rw [enrich_of_isRadio _ _ _ _ hr]
    exact ⟨rfl, rfl, rfl⟩
  · intro hr
    exact enrich_of_not_isRadio _ _ _ _ hr

theorem empty_walks_give_zero_witness :
    (aviatCommunicator.GetInterfaces (boundNetwork (.ok []) (.ok []) (.ok []))
        (fixedCommunicator (.ok [radio01, ethWithRadioFields])) () ([] : List Unit)).ret
        = .ok [{ IfName := some "Radio0/1", MaxSpeedIn := some 0, MaxSpeedOut := some 0,
                 Radio := some { MaxbitrateOut := some 0, MaxbitrateIn := some 0 } },
               ethWithRadioFields] ∧
      ∃ result : List Interface,
        (aviatCommunicator.GetInterfaces (boundNetwork (.ok []) (.ok []) (.ok []))
          (fixedCommunicator (.ok [radio01, ethWithRadioFields])) () ([] : List Unit)).ret
          = .ok result ∧
        ∀ (i : Nat) (b : Interface), [radio01, ethWithRadioFields][i]? = some b →
          ∃ r : Interface, result[i]? = some r ∧
            (isRadio b = true →
              r.MaxSpeedIn = some 0 ∧ r.MaxSpeedOut = some 0 ∧
              r.Radio = some { MaxbitrateOut := some 0, MaxbitrateIn := some 0 }) ∧
            (isRadio b = false → r = b) :=
  ⟨rfl,
    empty_walks_give_zero (boundNetwork (.ok []) (.ok []) (.ok []))
      (fixedCommunicator (.ok [radio01, ethWithRadioFields])) () []
      [radio01, ethWithRadioFields]
      ⟨rfl, rfl, ⟨fixedClient (.ok []) (.ok []) (.ok [])⟩, rfl, rfl, rfl, rfl⟩⟩

/-- C24: for every sequence of decoded values the max-capacity loop succeeds with the
sum of the values modulo 2^64, and the transmit and receive loops, which scale each value
by 1000 and then add, succeed with 1000 times the sum of the values modulo 2^64: scaling
then summing and summing then scaling agree, also when they wrap. A total that wraps is a
successful result: two values 2^63 give the total 0 and the invocation succeeds. -/
theorem aggregation_is_modular (vs : List Nat) :
    maxCapacityLoop (vs.map SNMPResponse.ofUInt64) = .ok (vs.sum % 2 ^ 64) ∧
      maxBitRateTxLoop (vs.map SNMPResponse.ofUInt64) = .ok (1000 * vs.sum % 2 ^ 64) ∧
      maxBitRateRxLoop (vs.map SNMPResponse.ofUInt64) = .ok (1000 * vs.sum % 2 ^ 64) ∧
      (vs.map (fun bitRate => bitRate * 1000 % 2 ^ 64)).sum % 2 ^ 64
        = 1000 * vs.sum % 2 ^ 64 ∧
      maxCapacityLoop
          (([9223372036854775808, 9223372036854775808] : List Nat).map SNMPResponse.ofUInt64)
        = .ok 0 ∧
      maxBitRateTxLoop (([18446744073709551615] : List Nat).map SNMPResponse.ofUInt64)
        = .ok 18446744073709550616 ∧
      (aviatCommunicator.GetInterfaces
          (boundNetwork (walkOf [9223372036854775808, 9223372036854775808])
            (walkOf [18446744073709551615]) (walkOf [20]))
          (fixedCommunicator (.ok [radio01])) () ([] : List Unit)).ret
        = .ok [{ IfName := some "Radio0/1", MaxSpeedIn := some 0, MaxSpeedOut := some 0,
                 Radio := some { MaxbitrateOut := some 18446744073709550616,
                                 MaxbitrateIn := some 20000 } }] :=
  ⟨maxCapacityLoop_ofUInt64 vs, maxBitRateTxLoop_ofUInt64 vs, maxBitRateRxLoop_ofUInt64 vs,
    sum_scaled_mod vs, rfl, rfl, rfl⟩

theorem isRadio_enrich (a t r : Nat) (b : Interface) :
    isRadio (enrich a t r b) = isRadio b := by
  cases h : isRadio b
  · rw [enrich_of_not_isRadio _ _ _ _ h, h]
  · rw [enrich_of_isRadio _ _ _ _ h]
    simpa [isRadio] using h

theorem enrich_enrich (a t r : Nat) (b : Interface) :
    enrich a t r (enrich a t r b) = enrich a t r b := by
  cases h : isRadio b
  · rw [enrich_of_not_isRadio _ _ _ _ h, enrich_of_not_isRadio _ _ _ _ h]
  · have h2 : isRadio (enrich a t r b) = true := by rw [isRadio_enrich, h]
    rw [enrich_of_isRadio _ _ _ _ h2, enrich_of_isRadio _ _ _ _ h]

/-- C25: for fixed totals of the walks, the merge step applied to a list that is a
result of that merge gives the same list: the merge leaves `IfName` and with it the
selection predicate as they are, and the values it writes are the totals, whatever the
entry held. -/
theorem merge_idempotent (maxCapacity maxBitRateTx maxBitRateRx : Nat)
    (interfaces : List Interface) (b : Interface) :
    mergeLoop maxCapacity maxBitRateTx maxBitRateRx
        (mergeLoop maxCapacity maxBitRateTx maxBitRateRx interfaces)
      = mergeLoop maxCapacity maxBitRateTx maxBitRateRx interfaces ∧
      (enrich maxCapacity maxBitRateTx maxBitRateRx b).IfName = b.IfName ∧
      isRadio (enrich maxCapacity maxBitRateTx maxBitRateRx b) = isRadio b := by
  refine ⟨?_, ?_, isRadio_enrich _ _ _ b⟩
  · simp only [mergeLoop, List.map_map]
    apply List.map_congr_left
    intro x _
    exact enrich_enrich _ _ _ x
  · cases h : isRadio b
    · rw [enrich_of_not_isRadio _ _ _ _ h]
    · rw [enrich_of_isRadio _ _ _ _ h]

/-! ## Theorems: `CheckCPULoadRequest.validate` -/

theorem validateTraced_fst {Ctx DeviceRequest Thresholds : Type}
    (v : Validators Ctx DeviceRequest Thresholds)
    (r : CheckCPULoadRequest DeviceRequest Thresholds) (ctx : Ctx) :
    (CheckCPULoadRequest.validateTraced v r ctx).1 = CheckCPULoadRequest.validate v r ctx := by
  unfold CheckCPULoadRequest.validateTraced CheckCPULoadRequest.validate
  cases v.thresholdsValidate r.CPULoadThresholds <;> rfl

/-- C26: `CheckCPULoadRequest.validate` validates the thresholds first. When that fails
with the error `e` it returns `e` and does not call the validation of the embedded
device request; otherwise it returns what the validation of the device request returns.
So it succeeds exactly when both validations succeed. -/
theorem validate_thresholds_first {Ctx DeviceRequest Thresholds : Type}
    (v : Validators Ctx DeviceRequest Thresholds)
    (r : CheckCPULoadRequest DeviceRequest Thresholds) (ctx : Ctx) :
    (∀ e : Error, v.thresholdsValidate r.CPULoadThresholds = some e →
        CheckCPULoadRequest.validate v r ctx = some e ∧
        CheckCPULoadRequest.validateTraced v r ctx
          = (some e, ["CPULoadThresholds.validate"])) ∧
      (v.thresholdsValidate r.CPULoadThresholds = none →
        CheckCPULoadRequest.validate v r ctx
          = v.deviceRequestValidate r.CheckDeviceRequest ctx ∧
        CheckCPULoadRequest.validateTraced v r ctx
          = (v.deviceRequestValidate r.CheckDeviceRequest ctx,
              ["CPULoadThresholds.validate", "CheckDeviceRequest.validate"])) ∧
      (CheckCPULoadRequest.validate v r ctx = none ↔
        v.thresholdsValidate r.CPULoadThresholds = none ∧
        v.deviceRequestValidate r.CheckDeviceRequest ctx = none) := by
  unfold CheckCPULoadRequest.validate CheckCPULoadRequest.validateTraced
  cases h : v.thresholdsValidate r.CPULoadThresholds with
  | none => simp
  | some e => simp

end Thola
